import Mathlib

/-!
Shallow embedding of the `learning-wasm` WebAssembly binary decoder
(`src/io.rs`, `src/elements/*.rs`) and proofs about it.

Modelling conventions:
* Bytes are `Nat` (values `< 256` on real inputs; universal theorems carry
  explicit bounds where byte arithmetic matters).
* A Rust `&mut R: io::Read` is modelled by threading an explicit `Reader`
  state.  The repository uses two concrete readers:
  - the top-level `BufReader` (`src/io.rs`), which wraps a host stream and
    turns a zero-length read into an `io::ErrorKind::UnexpectedEof` error
    (`eofError := true`);
  - the in-memory cursor of `SectionReader` (`src/elements/sections.rs`),
    i.e. `io::Cursor<Vec<u8>>`, which simply returns zero bytes at its end
    (`eofError := false`).
  Both deliver `min (requested, remaining)` bytes per call, which is the
  behaviour of `io::Cursor` and of the host readers the crate is used with.
* Rust's `Result<T, Error>` with an in-place mutated reader becomes `DRes α`:
  both the success and the error case carry the final reader state.
* `io::Error` values that cross into `elements::Error` go through
  `From<io::Error> for Error`, which produces `Error.HeapOther` with the
  debug-formatted kind; this is modelled exactly (`ioErrorToError`).
* Loops whose iteration count is bounded by the source's own guards are
  written with a structural fuel argument whose entry value provably exceeds
  the bound, so the fuel-zero branch is unreachable from the public entry
  points; loops that genuinely may diverge in Rust (the instruction loops on
  a cursor that silently yields zero bytes forever) return `Option`, with
  `none` meaning "still running after `fuel` iterations".
-/

/-- Error taxonomy of `src/elements/mod.rs` (`enum Error`). -/
inductive Error where
  | UnexpectedEof
  | InvalidMagic
  | UnsupportedVersion (v : Nat)
  | InconsistentLength (expected actual : Nat)
  | Other (msg : String)
  | HeapOther (msg : String)
  | UnknownValueType (v : Int)
  | UnknownTableElementType (v : Int)
  | NonUtf8String
  | UnknownExternalKind (v : Nat)
  | UnknownInternalKind (v : Nat)
  | UnknownOpcode (v : Nat)
  | InvalidVarUint1 (v : Nat)
  | InvalidVarInt32
  | InvalidVarInt64
  | InvalidVarUint32
  | InvalidVarUint64
  | InconsistentMetadata
  | InvalidSectionId (v : Nat)
  | SectionsOutOfOrder
  | DuplicatedSections (v : Nat)
  | InvalidMemoryReference (v : Nat)
  | InvalidTableReference (v : Nat)
  | InvalidLimitsFlags (v : Nat)
  | UnknownFunctionForm (v : Nat)
  | InvalidVarInt7 (v : Nat)
  | InconsistentCode
  | InvalidSegmentFlags (v : Nat)
  | TooManyLocals
  | DuplicatedNameSubsections (v : Nat)
  | UnknownNameSubsectionType (v : Nat)
  deriving DecidableEq, Repr

/-- The two `io::ErrorKind`s the embedded code can produce. -/
inductive IOErrorKind where
  | UnexpectedEof
  | InvalidData
  deriving DecidableEq, Repr

/-- `impl From<io::Error> for Error` (`src/elements/mod.rs`):
`Error::HeapOther(format!("I/O Error: {:?}", other))`. -/
def ioErrorToError : IOErrorKind → Error
  | .UnexpectedEof => .HeapOther "I/O Error: Kind(UnexpectedEof)"
  | .InvalidData => .HeapOther "I/O Error: Kind(InvalidData)"

/-- Reader state: remaining bytes plus the end-of-input behaviour
(`eofError = true` for the top-level `BufReader`, `false` for the
`io::Cursor` inside `SectionReader`). -/
structure Reader where
  bytes : List Nat
  eofError : Bool
  deriving DecidableEq, Repr

/-- Result of one deserializer step: Rust mutates the reader in place, so
both outcomes carry the final reader state. -/
inductive DRes (α : Type) where
  | ok (a : α) (r : Reader)
  | err (e : Error) (r : Reader)
  deriving DecidableEq, Repr

/-- Sequencing of deserializers (Rust's `?` operator). -/
def DRes.bind {α β : Type} (x : DRes α) (f : α → Reader → DRes β) : DRes β :=
  match x with
  | .ok a r => f a r
  | .err e r => .err e r

/-- `let mut buf = [0u8; n]; reader.read(&mut buf)?; buf` — a single `read`
call on a **fresh** zero-initialised `n`-byte buffer (every fixed-width
codec declares its buffer inside the function).  The reader delivers
`min n remaining` bytes; the rest of the buffer keeps its zeros.  At end of
input the `BufReader` wrapper errors; the cursor returns zero bytes,
leaving the buffer's zeros in place.  Reads into a buffer that is *reused*
across loop iterations (the LEB128 loops' `u8buf`, `buffered_read!`'s
chunk buffer) are modelled separately — `Reader.readByteInto` and
`bufferedReadLoop` thread the previous buffer contents, because a
zero-length cursor read leaves stale bytes visible. -/
def Reader.readBuf (r : Reader) (n : Nat) : DRes (List Nat) :=
  if n = 0 then .ok [] r
  else if r.bytes.isEmpty then
    if r.eofError then .err (ioErrorToError .UnexpectedEof) r
    else .ok (List.replicate n 0) r
  else
    let k := min n r.bytes.length
    .ok (r.bytes.take k ++ List.replicate (n - k) 0) ⟨r.bytes.drop k, r.eofError⟩

/-- `buffered_read!` macro (`src/elements/mod.rs`): read `length` bytes in
chunks of at most `bufSize` into a growing vector.  The chunk buffer persists
between iterations, so a short read leaves stale bytes in place; the loop
counts `next_to_read` as read regardless of how many bytes the reader
actually delivered.  The fuel starts at `length`; each iteration consumes at
least one (as `0 < bufSize` at every call site), so the fuel-zero branch is
unreachable. -/
def bufferedReadLoop (bufSize : Nat) : Nat → List Nat → Nat → Reader → DRes (List Nat)
  | _, _, 0, r => .ok [] r
  | 0, _, _ + 1, r => .ok [] r
  | fuel + 1, buf, rem + 1, r =>
    let remaining := rem + 1
    let next := min bufSize remaining
    match r.readBuf next with
    | .err e r1 => .err e r1
    | .ok chunk r1 =>
      -- `chunk` is the updated `buf[0..next]`; a short read of `k` bytes
      -- leaves `buf[k..next]` as it was.
      let k := min next r.bytes.length
      let filled := chunk.take k ++ (buf.take next).drop k
      let buf1 := filled ++ buf.drop next
      (bufferedReadLoop bufSize fuel buf1 (remaining - next) r1).bind
        fun v r2 => .ok (filled ++ v) r2

/-- `buffered_read!(bufSize, length, reader)`. -/
def bufferedRead (bufSize length : Nat) (r : Reader) : DRes (List Nat) :=
  bufferedReadLoop bufSize length (List.replicate bufSize 0) length r

/-- `reader.read(&mut u8buf)?; u8buf[0]` for a 1-byte buffer declared
**once** and reused across loop iterations, currently holding `prev` (the
LEB128 loops of `src/elements/primitives.rs`).  A nonempty reader delivers
the next byte; at end of input the `BufReader` wrapper errors, while the
cursor returns `Ok(0)` and the buffer keeps its previous (stale) byte. -/
def Reader.readByteInto (r : Reader) (prev : Nat) : DRes Nat :=
  match r.bytes with
  | [] =>
    if r.eofError then .err (ioErrorToError .UnexpectedEof) r
    else .ok prev r
  | b :: rest => .ok b ⟨rest, r.eofError⟩

/-- `Uint8::deserialize` (`src/elements/primitives.rs`). -/
def Uint8.deserialize (r : Reader) : DRes Nat :=
  (r.readBuf 1).bind fun buf r1 => .ok (buf.headD 0) r1

/-- Little-endian value of a 4-byte buffer (`u32::from_le_bytes`). -/
def fromLE4 (l : List Nat) : Nat :=
  l.getD 0 0 + 256 * l.getD 1 0 + 256 ^ 2 * l.getD 2 0 + 256 ^ 3 * l.getD 3 0

/-- Little-endian value of an 8-byte buffer (`u64::from_le_bytes`). -/
def fromLE8 (l : List Nat) : Nat :=
  l.getD 0 0 + 256 * l.getD 1 0 + 256 ^ 2 * l.getD 2 0 + 256 ^ 3 * l.getD 3 0 +
    256 ^ 4 * l.getD 4 0 + 256 ^ 5 * l.getD 5 0 + 256 ^ 6 * l.getD 6 0 +
    256 ^ 7 * l.getD 7 0

/-- `Uint32::deserialize`: one `read` call on a 4-byte zero buffer, then
`u32::from_le_bytes` over the whole buffer. -/
def Uint32.deserialize (r : Reader) : DRes Nat :=
  (r.readBuf 4).bind fun buf r1 => .ok (fromLE4 buf) r1

/-- `Uint64::deserialize`: one `read` call on an 8-byte zero buffer. -/
def Uint64.deserialize (r : Reader) : DRes Nat :=
  (r.readBuf 8).bind fun buf r1 => .ok (fromLE8 buf) r1

/-- `u8::leading_zeros` for a byte value. -/
def leadingZeros8 (b : Nat) : Nat :=
  if b ≥ 128 then 0
  else if b ≥ 64 then 1
  else if b ≥ 32 then 2
  else if b ≥ 16 then 3
  else if b ≥ 8 then 4
  else if b ≥ 4 then 5
  else if b ≥ 2 then 6
  else if b ≥ 1 then 7
  else 8

/-- Loop body of `VarUint32::deserialize`.  `res` is the accumulated 32-bit
pattern, `shift` the current shift, `u8buf` the current content of the
1-byte buffer declared before the loop (initially 0; a zero-length cursor
read leaves it stale).  The guard `shift > 31` fires at the sixth
iteration at the latest, so the entry fuel of 6 makes the fuel-zero branch
unreachable (it conservatively repeats the guard's error). -/
def varUint32Loop : Nat → Nat → Nat → Nat → Reader → DRes Nat
  | 0, _, _, _, r => .err .InvalidVarUint32 r
  | fuel + 1, res, shift, u8buf, r =>
    if shift > 31 then .err .InvalidVarUint32 r
    else
      (r.readByteInto u8buf).bind fun b r1 =>
        -- `checked_shl` cannot fail here (`shift ≤ 31 < 32`); the shifted
        -- value silently wraps to 32 bits, as `u32 <<` does.
        let res1 := res ||| (((b &&& 0x7f) <<< shift) % 2 ^ 32)
        let shift1 := shift + 7
        if b >>> 7 = 0 then
          if shift1 ≥ 32 ∧ leadingZeros8 b < 4 then .err .InvalidVarInt32 r1
          else .ok res1 r1
        else varUint32Loop fuel res1 shift1 b r1

/-- `VarUint32::deserialize` (`src/elements/primitives.rs`). -/
def VarUint32.deserialize (r : Reader) : DRes Nat :=
  varUint32Loop 6 0 0 0 r

/-- `VarUint1::deserialize`: one byte, `0 ↦ false`, `1 ↦ true`. -/
def VarUint1.deserialize (r : Reader) : DRes Bool :=
  (r.readBuf 1).bind fun buf r1 =>
    match buf.headD 0 with
    | 0 => .ok false r1
    | 1 => .ok true r1
    | b => .err (.InvalidVarUint1 b) r1

/-- `VarUint7::deserialize`: one byte, no checks. -/
def VarUint7.deserialize (r : Reader) : DRes Nat :=
  (r.readBuf 1).bind fun buf r1 => .ok (buf.headD 0) r1

/-- `VarInt7::deserialize`: one byte; continuation bit set is an error;
bit 6 sign-extends.  Returns the `i8` value. -/
def VarInt7.deserialize (r : Reader) : DRes Int :=
  (r.readBuf 1).bind fun buf r1 =>
    let b := buf.headD 0
    if b &&& 0b10000000 ≠ 0 then .err (.InvalidVarInt7 b) r1
    else if b &&& 0b01000000 = 0b01000000 then .ok ((b ||| 0b10000000 : Nat) - 256 : Int) r1
    else .ok (b : Int) r1

/-- `i8 as u8` view of a `VarInt7` value (`impl From<VarInt7> for u8`). -/
def i8ToU8 (v : Int) : Nat := ((v % 256).toNat : Nat)

/-- 32-bit two's-complement pattern read as `i32`. -/
def toI32 (n : Nat) : Int := if n < 2 ^ 31 then (n : Int) else (n : Int) - 2 ^ 32

/-- 64-bit two's-complement pattern read as `i64`. -/
def toI64 (n : Nat) : Int := if n < 2 ^ 63 then (n : Int) else (n : Int) - 2 ^ 64

/-- Loop of `VarInt32::deserialize`; `res` is the 32-bit pattern, `u8buf`
the reused 1-byte buffer's content (initially 0).  The guard `shift > 31`
fires by the sixth iteration; entry fuel 6. -/
def varInt32Loop : Nat → Nat → Nat → Nat → Reader → DRes Nat
  | 0, _, _, _, r => .err .InvalidVarInt32 r
  | fuel + 1, res, shift, u8buf, r =>
    if shift > 31 then .err .InvalidVarInt32 r
    else
      (r.readByteInto u8buf).bind fun b r1 =>
        let res1 := res ||| (((b &&& 0x7f) <<< shift) % 2 ^ 32)
        let shift1 := shift + 7
        if b >>> 7 = 0 then
          if shift1 < 32 ∧ b &&& 0b01000000 = 0b01000000 then
            -- `res |= (1i32 << shift).wrapping_neg()`: set bits `shift1..31`.
            .ok (res1 ||| (2 ^ 32 - 2 ^ shift1)) r1
          else if shift1 ≥ 32 ∧ b &&& 0b01000000 = 0b01000000 then
            if leadingZeros8 (255 - (b ||| 0b10000000)) < 5 then .err .InvalidVarInt32 r1
            else .ok res1 r1
          else if shift1 ≥ 32 ∧ b &&& 0b01000000 = 0 then
            if leadingZeros8 b < 5 then .err .InvalidVarInt32 r1
            else .ok res1 r1
          else .ok res1 r1
        else varInt32Loop fuel res1 shift1 b r1

/-- `VarInt32::deserialize`, yielding the `i32` value. -/
def VarInt32.deserialize (r : Reader) : DRes Int :=
  (varInt32Loop 6 0 0 0 r).bind fun n r1 => .ok (toI32 n) r1

/-- Loop of `VarInt64::deserialize`; `u8buf` is the reused 1-byte buffer's
content (initially 0); guard `shift > 63`, entry fuel 11. -/
def varInt64Loop : Nat → Nat → Nat → Nat → Reader → DRes Nat
  | 0, _, _, _, r => .err .InvalidVarInt64 r
  | fuel + 1, res, shift, u8buf, r =>
    if shift > 63 then .err .InvalidVarInt64 r
    else
      (r.readByteInto u8buf).bind fun b r1 =>
        let res1 := res ||| (((b &&& 0x7f) <<< shift) % 2 ^ 64)
        let shift1 := shift + 7
        if b >>> 7 = 0 then
          if shift1 < 64 ∧ b &&& 0b01000000 = 0b01000000 then
            .ok (res1 ||| (2 ^ 64 - 2 ^ shift1)) r1
          else if shift1 ≥ 64 ∧ b &&& 0b01000000 = 0b01000000 then
            -- `(b | 0b1000_0000) as i8 != -1`
            if b ||| 0b10000000 ≠ 255 then .err .InvalidVarInt64 r1
            else .ok res1 r1
          else if shift1 ≥ 64 ∧ b ≠ 0 then .err .InvalidVarInt64 r1
          else .ok res1 r1
        else varInt64Loop fuel res1 shift1 b r1

/-- `VarInt64::deserialize`, yielding the `i64` value. -/
def VarInt64.deserialize (r : Reader) : DRes Int :=
  (varInt64Loop 11 0 0 0 r).bind fun n r1 => .ok (toI64 n) r1

/-- Continuation byte test for UTF-8 (`0x80..=0xBF`). -/
def isUtf8Cont (b : Nat) : Bool := 0x80 ≤ b ∧ b ≤ 0xBF

/-- `String::from_utf8` validity (RFC 3629, as Rust checks it:
no overlong forms, no surrogates, max U+10FFFF). -/
def isValidUtf8 : List Nat → Bool
  | [] => true
  | b :: rest =>
    if b ≤ 0x7F then isValidUtf8 rest
    else if 0xC2 ≤ b ∧ b ≤ 0xDF then
      match rest with
      | c1 :: r => isUtf8Cont c1 && isValidUtf8 r
      | _ => false
    else if b = 0xE0 then
      match rest with
      | c1 :: c2 :: r => (0xA0 ≤ c1 ∧ c1 ≤ 0xBF : Bool) && isUtf8Cont c2 && isValidUtf8 r
      | _ => false
    else if (0xE1 ≤ b ∧ b ≤ 0xEC) ∨ b = 0xEE ∨ b = 0xEF then
      match rest with
      | c1 :: c2 :: r => isUtf8Cont c1 && isUtf8Cont c2 && isValidUtf8 r
      | _ => false
    else if b = 0xED then
      match rest with
      | c1 :: c2 :: r => (0x80 ≤ c1 ∧ c1 ≤ 0x9F : Bool) && isUtf8Cont c2 && isValidUtf8 r
      | _ => false
    else if b = 0xF0 then
      match rest with
      | c1 :: c2 :: c3 :: r =>
        (0x90 ≤ c1 ∧ c1 ≤ 0xBF : Bool) && isUtf8Cont c2 && isUtf8Cont c3 && isValidUtf8 r
      | _ => false
    else if 0xF1 ≤ b ∧ b ≤ 0xF3 then
      match rest with
      | c1 :: c2 :: c3 :: r => isUtf8Cont c1 && isUtf8Cont c2 && isUtf8Cont c3 && isValidUtf8 r
      | _ => false
    else if b = 0xF4 then
      match rest with
      | c1 :: c2 :: c3 :: r =>
        (0x80 ≤ c1 ∧ c1 ≤ 0x8F : Bool) && isUtf8Cont c2 && isUtf8Cont c3 && isValidUtf8 r
      | _ => false
    else false

/-- A decoded Rust `String`, represented by its UTF-8 bytes. -/
def WStr : Type := List Nat

instance : DecidableEq WStr := inferInstanceAs (DecidableEq (List Nat))

instance : Repr WStr := inferInstanceAs (Repr (List Nat))

/-- `impl Deserialize for String` (`src/elements/primitives.rs`):
`VarUint32` length, empty shortcut, `buffered_read!` with the 1024-byte
primitives buffer, then UTF-8 validation. -/
def Str.deserialize (r : Reader) : DRes WStr :=
  (VarUint32.deserialize r).bind fun len r1 =>
    if len = 0 then .ok ([] : List Nat) r1
    else
      (bufferedRead 1024 len r1).bind fun v r2 =>
        if isValidUtf8 v then .ok v r2 else .err .NonUtf8String r2

/-- `n` successive decodings (tail of `CountedList::deserialize`). -/
def countedListAux {α : Type} (dec : Reader → DRes α) : Nat → Reader → DRes (List α)
  | 0, r => .ok [] r
  | n + 1, r =>
    (dec r).bind fun a r1 =>
      (countedListAux dec n r1).bind fun l r2 => .ok (a :: l) r2

/-- `CountedList::deserialize`: `VarUint32` count then that many elements. -/
def countedList {α : Type} (dec : Reader → DRes α) (r : Reader) : DRes (List α) :=
  (VarUint32.deserialize r).bind fun n r1 => countedListAux dec n r1

/-- `ValueType` (`src/elements/types.rs`). -/
inductive ValueType where
  | I32
  | I64
  | F32
  | F64
  deriving DecidableEq, Repr

/-- `ValueType::deserialize`: a `VarInt7`, `-1..-4`. -/
def ValueType.deserialize (r : Reader) : DRes ValueType :=
  (VarInt7.deserialize r).bind fun v r1 =>
    if v = -1 then .ok .I32 r1
    else if v = -2 then .ok .I64 r1
    else if v = -3 then .ok .F32 r1
    else if v = -4 then .ok .F64 r1
    else .err (.UnknownValueType v) r1

/-- `BlockType` (`src/elements/types.rs`). -/
inductive BlockType where
  | Value (t : ValueType)
  | NoResult
  deriving DecidableEq, Repr

/-- `BlockType::deserialize`: a `VarInt7`, `-1..-4` or `-0x40`. -/
def BlockType.deserialize (r : Reader) : DRes BlockType :=
  (VarInt7.deserialize r).bind fun v r1 =>
    if v = -0x01 then .ok (.Value .I32) r1
    else if v = -0x02 then .ok (.Value .I64) r1
    else if v = -0x03 then .ok (.Value .F32) r1
    else if v = -0x04 then .ok (.Value .F64) r1
    else if v = -0x40 then .ok .NoResult r1
    else .err (.UnknownValueType v) r1

/-- `TableElementType` (`src/elements/types.rs`). -/
inductive TableElementType where
  | AnyFunc
  deriving DecidableEq, Repr

/-- `TableElementType::deserialize`: a `VarInt7`, `-0x10` only. -/
def TableElementType.deserialize (r : Reader) : DRes TableElementType :=
  (VarInt7.deserialize r).bind fun v r1 =>
    if v = -0x10 then .ok .AnyFunc r1
    else .err (.UnknownTableElementType v) r1

/-- `FunctionType` (`src/elements/types.rs`). -/
structure FunctionType where
  form : Nat
  params : List ValueType
  results : List ValueType
  deriving DecidableEq, Repr

/-- `FunctionType::deserialize`: `VarUint7` form byte (must be `0x60`),
counted parameter types, counted result types, at most one result. -/
def FunctionType.deserialize (r : Reader) : DRes FunctionType :=
  (VarUint7.deserialize r).bind fun form r1 =>
    if form ≠ 0x60 then .err (.UnknownFunctionForm form) r1
    else
      (countedList ValueType.deserialize r1).bind fun params r2 =>
        (countedList ValueType.deserialize r2).bind fun results r3 =>
          if results.length > 1 then
            .err (.Other "Enable the multi_value feature to deserialize more than one function result") r3
          else .ok ⟨form, params, results⟩ r3

/-- `BrTableData` (`src/elements/ops.rs`). -/
structure BrTableData where
  table : List Nat
  default : Nat
  deriving DecidableEq, Repr

/-- `Instruction` (`src/elements/ops.rs`), all MVP opcodes. -/
inductive Instruction where
  | Unreachable
  | Nop
  | Block (t : BlockType)
  | Loop (t : BlockType)
  | If (t : BlockType)
  | Else
  | End
  | Br (l : Nat)
  | BrIf (l : Nat)
  | BrTable (d : BrTableData)
  | Return
  | Call (f : Nat)
  | CallIndirect (sig : Nat) (tableRef : Nat)
  | Drop
  | Select
  | GetLocal (i : Nat)
  | SetLocal (i : Nat)
  | TeeLocal (i : Nat)
  | GetGlobal (i : Nat)
  | SetGlobal (i : Nat)
  | I32Load (a o : Nat)
  | I64Load (a o : Nat)
  | F32Load (a o : Nat)
  | F64Load (a o : Nat)
  | I32Load8S (a o : Nat)
  | I32Load8U (a o : Nat)
  | I32Load16S (a o : Nat)
  | I32Load16U (a o : Nat)
  | I64Load8S (a o : Nat)
  | I64Load8U (a o : Nat)
  | I64Load16S (a o : Nat)
  | I64Load16U (a o : Nat)
  | I64Load32S (a o : Nat)
  | I64Load32U (a o : Nat)
  | I32Store (a o : Nat)
  | I64Store (a o : Nat)
  | F32Store (a o : Nat)
  | F64Store (a o : Nat)
  | I32Store8 (a o : Nat)
  | I32Store16 (a o : Nat)
  | I64Store8 (a o : Nat)
  | I64Store16 (a o : Nat)
  | I64Store32 (a o : Nat)
  | CurrentMemory (m : Nat)
  | GrowMemory (m : Nat)
  | I32Const (v : Int)
  | I64Const (v : Int)
  | F32Const (bits : Nat)
  | F64Const (bits : Nat)
  | I32Eqz | I32Eq | I32Ne | I32LtS | I32LtU | I32GtS | I32GtU
  | I32LeS | I32LeU | I32GeS | I32GeU
  | I64Eqz | I64Eq | I64Ne | I64LtS | I64LtU | I64GtS | I64GtU
  | I64LeS | I64LeU | I64GeS | I64GeU
  | F32Eq | F32Ne | F32Lt | F32Gt | F32Le | F32Ge
  | F64Eq | F64Ne | F64Lt | F64Gt | F64Le | F64Ge
  | I32Clz | I32Ctz | I32Popcnt | I32Add | I32Sub | I32Mul
  | I32DivS | I32DivU | I32RemS | I32RemU
  | I32And | I32Or | I32Xor | I32Shl | I32ShrS | I32ShrU | I32Rotl | I32Rotr
  | I64Clz | I64Ctz | I64Popcnt | I64Add | I64Sub | I64Mul
  | I64DivS | I64DivU | I64RemS | I64RemU
  | I64And | I64Or | I64Xor | I64Shl | I64ShrS | I64ShrU | I64Rotl | I64Rotr
  | F32Abs | F32Neg | F32Ceil | F32Floor | F32Trunc | F32Nearest | F32Sqrt
  | F32Add | F32Sub | F32Mul | F32Div | F32Min | F32Max | F32Copysign
  | F64Abs | F64Neg | F64Ceil | F64Floor | F64Trunc | F64Nearest | F64Sqrt
  | F64Add | F64Sub | F64Mul | F64Div | F64Min | F64Max | F64Copysign
  | I32WrapI64 | I32TruncSF32 | I32TruncUF32 | I32TruncSF64 | I32TruncUF64
  | I64ExtendSI32 | I64ExtendUI32
  | I64TruncSF32 | I64TruncUF32 | I64TruncSF64 | I64TruncUF64
  | F32ConvertSI32 | F32ConvertUI32 | F32ConvertSI64 | F32ConvertUI64 | F32DemoteF64
  | F64ConvertSI32 | F64ConvertUI32 | F64ConvertSI64 | F64ConvertUI64 | F64PromoteF32
  | I32ReinterpretF32 | I64ReinterpretF64 | F32ReinterpretI32 | F64ReinterpretI64

/-- `Instruction::is_block`: `Block`, `Loop` and `If` open a nested block. -/
def Instruction.is_block : Instruction → Bool
  | .Block _ | .Loop _ | .If _ => true
  | _ => false

/-- `Instruction::is_terminal`: `true` exactly for `End`. -/
def Instruction.is_terminal : Instruction → Bool
  | .End => true
  | _ => false

/-- Shared decoding of the two `VarUint32` memory immediates
(alignment flag, offset) of the load/store opcodes. -/
def memImm (mk : Nat → Nat → Instruction) (r : Reader) : DRes Instruction :=
  (VarUint32.deserialize r).bind fun a r1 =>
    (VarUint32.deserialize r1).bind fun o r2 => .ok (mk a o) r2

/-- `Instruction::deserialize` (`src/elements/ops.rs`): one opcode byte,
then the immediates of that opcode. -/
def Instruction.deserialize (r : Reader) : DRes Instruction :=
  (Uint8.deserialize r).bind fun val r1 =>
    match val with
    | 0x00 => .ok .Unreachable r1
    | 0x01 => .ok .Nop r1
    | 0x02 => (BlockType.deserialize r1).bind fun t r2 => .ok (.Block t) r2
    | 0x03 => (BlockType.deserialize r1).bind fun t r2 => .ok (.Loop t) r2
    | 0x04 => (BlockType.deserialize r1).bind fun t r2 => .ok (.If t) r2
    | 0x05 => .ok .Else r1
    | 0x0b => .ok .End r1
    | 0x0c => (VarUint32.deserialize r1).bind fun l r2 => .ok (.Br l) r2
    | 0x0d => (VarUint32.deserialize r1).bind fun l r2 => .ok (.BrIf l) r2
    | 0x0e =>
      (countedList VarUint32.deserialize r1).bind fun t r2 =>
        (VarUint32.deserialize r2).bind fun d r3 => .ok (.BrTable ⟨t, d⟩) r3
    | 0x0f => .ok .Return r1
    | 0x10 => (VarUint32.deserialize r1).bind fun f r2 => .ok (.Call f) r2
    | 0x11 =>
      (VarUint32.deserialize r1).bind fun signature r2 =>
        (Uint8.deserialize r2).bind fun tableRef r3 =>
          if tableRef ≠ 0 then .err (.InvalidTableReference tableRef) r3
          else .ok (.CallIndirect signature tableRef) r3
    | 0x1a => .ok .Drop r1
    | 0x1b => .ok .Select r1
    | 0x20 => (VarUint32.deserialize r1).bind fun i r2 => .ok (.GetLocal i) r2
    | 0x21 => (VarUint32.deserialize r1).bind fun i r2 => .ok (.SetLocal i) r2
    | 0x22 => (VarUint32.deserialize r1).bind fun i r2 => .ok (.TeeLocal i) r2
    | 0x23 => (VarUint32.deserialize r1).bind fun i r2 => .ok (.GetGlobal i) r2
    | 0x24 => (VarUint32.deserialize r1).bind fun i r2 => .ok (.SetGlobal i) r2
    | 0x28 => memImm .I32Load r1
    | 0x29 => memImm .I64Load r1
    | 0x2a => memImm .F32Load r1
    | 0x2b => memImm .F64Load r1
    | 0x2c => memImm .I32Load8S r1
    | 0x2d => memImm .I32Load8U r1
    | 0x2e => memImm .I32Load16S r1
    | 0x2f => memImm .I32Load16U r1
    | 0x30 => memImm .I64Load8S r1
    | 0x31 => memImm .I64Load8U r1
    | 0x32 => memImm .I64Load16S r1
    | 0x33 => memImm .I64Load16U r1
    | 0x34 => memImm .I64Load32S r1
    | 0x35 => memImm .I64Load32U r1
    | 0x36 => memImm .I32Store r1
    | 0x37 => memImm .I64Store r1
    | 0x38 => memImm .F32Store r1
    | 0x39 => memImm .F64Store r1
    | 0x3a => memImm .I32Store8 r1
    | 0x3b => memImm .I32Store16 r1
    | 0x3c => memImm .I64Store8 r1
    | 0x3d => memImm .I64Store16 r1
    | 0x3e => memImm .I64Store32 r1
    | 0x3f =>
      (Uint8.deserialize r1).bind fun memRef r2 =>
        if memRef ≠ 0 then .err (.InvalidMemoryReference memRef) r2
        else .ok (.CurrentMemory memRef) r2
    | 0x40 =>
      (Uint8.deserialize r1).bind fun memRef r2 =>
        if memRef ≠ 0 then .err (.InvalidMemoryReference memRef) r2
        else .ok (.GrowMemory memRef) r2
    | 0x41 => (VarInt32.deserialize r1).bind fun v r2 => .ok (.I32Const v) r2
    | 0x42 => (VarInt64.deserialize r1).bind fun v r2 => .ok (.I64Const v) r2
    | 0x43 => (Uint32.deserialize r1).bind fun v r2 => .ok (.F32Const v) r2
    | 0x44 => (Uint64.deserialize r1).bind fun v r2 => .ok (.F64Const v) r2
    | 0x45 => .ok .I32Eqz r1
    | 0x46 => .ok .I32Eq r1
    | 0x47 => .ok .I32Ne r1
    | 0x48 => .ok .I32LtS r1
    | 0x49 => .ok .I32LtU r1
    | 0x4a => .ok .I32GtS r1
    | 0x4b => .ok .I32GtU r1
    | 0x4c => .ok .I32LeS r1
    | 0x4d => .ok .I32LeU r1
    | 0x4e => .ok .I32GeS r1
    | 0x4f => .ok .I32GeU r1
    | 0x50 => .ok .I64Eqz r1
    | 0x51 => .ok .I64Eq r1
    | 0x52 => .ok .I64Ne r1
    | 0x53 => .ok .I64LtS r1
    | 0x54 => .ok .I64LtU r1
    | 0x55 => .ok .I64GtS r1
    | 0x56 => .ok .I64GtU r1
    | 0x57 => .ok .I64LeS r1
    | 0x58 => .ok .I64LeU r1
    | 0x59 => .ok .I64GeS r1
    | 0x5a => .ok .I64GeU r1
    | 0x5b => .ok .F32Eq r1
    | 0x5c => .ok .F32Ne r1
    | 0x5d => .ok .F32Lt r1
    | 0x5e => .ok .F32Gt r1
    | 0x5f => .ok .F32Le r1
    | 0x60 => .ok .F32Ge r1
    | 0x61 => .ok .F64Eq r1
    | 0x62 => .ok .F64Ne r1
    | 0x63 => .ok .F64Lt r1
    | 0x64 => .ok .F64Gt r1
    | 0x65 => .ok .F64Le r1
    | 0x66 => .ok .F64Ge r1
    | 0x67 => .ok .I32Clz r1
    | 0x68 => .ok .I32Ctz r1
    | 0x69 => .ok .I32Popcnt r1
    | 0x6a => .ok .I32Add r1
    | 0x6b => .ok .I32Sub r1
    | 0x6c => .ok .I32Mul r1
    | 0x6d => .ok .I32DivS r1
    | 0x6e => .ok .I32DivU r1
    | 0x6f => .ok .I32RemS r1
    | 0x70 => .ok .I32RemU r1
    | 0x71 => .ok .I32And r1
    | 0x72 => .ok .I32Or r1
    | 0x73 => .ok .I32Xor r1
    | 0x74 => .ok .I32Shl r1
    | 0x75 => .ok .I32ShrS r1
    | 0x76 => .ok .I32ShrU r1
    | 0x77 => .ok .I32Rotl r1
    | 0x78 => .ok .I32Rotr r1
    | 0x79 => .ok .I64Clz r1
    | 0x7a => .ok .I64Ctz r1
    | 0x7b => .ok .I64Popcnt r1
    | 0x7c => .ok .I64Add r1
    | 0x7d => .ok .I64Sub r1
    | 0x7e => .ok .I64Mul r1
    | 0x7f => .ok .I64DivS r1
    | 0x80 => .ok .I64DivU r1
    | 0x81 => .ok .I64RemS r1
    | 0x82 => .ok .I64RemU r1
    | 0x83 => .ok .I64And r1
    | 0x84 => .ok .I64Or r1
    | 0x85 => .ok .I64Xor r1
    | 0x86 => .ok .I64Shl r1
    | 0x87 => .ok .I64ShrS r1
    | 0x88 => .ok .I64ShrU r1
    | 0x89 => .ok .I64Rotl r1
    | 0x8a => .ok .I64Rotr r1
    | 0x8b => .ok .F32Abs r1
    | 0x8c => .ok .F32Neg r1
    | 0x8d => .ok .F32Ceil r1
    | 0x8e => .ok .F32Floor r1
    | 0x8f => .ok .F32Trunc r1
    | 0x90 => .ok .F32Nearest r1
    | 0x91 => .ok .F32Sqrt r1
    | 0x92 => .ok .F32Add r1
    | 0x93 => .ok .F32Sub r1
    | 0x94 => .ok .F32Mul r1
    | 0x95 => .ok .F32Div r1
    | 0x96 => .ok .F32Min r1
    | 0x97 => .ok .F32Max r1
    | 0x98 => .ok .F32Copysign r1
    | 0x99 => .ok .F64Abs r1
    | 0x9a => .ok .F64Neg r1
    | 0x9b => .ok .F64Ceil r1
    | 0x9c => .ok .F64Floor r1
    | 0x9d => .ok .F64Trunc r1
    | 0x9e => .ok .F64Nearest r1
    | 0x9f => .ok .F64Sqrt r1
    | 0xa0 => .ok .F64Add r1
    | 0xa1 => .ok .F64Sub r1
    | 0xa2 => .ok .F64Mul r1
    | 0xa3 => .ok .F64Div r1
    | 0xa4 => .ok .F64Min r1
    | 0xa5 => .ok .F64Max r1
    | 0xa6 => .ok .F64Copysign r1
    | 0xa7 => .ok .I32WrapI64 r1
    | 0xa8 => .ok .I32TruncSF32 r1
    | 0xa9 => .ok .I32TruncUF32 r1
    | 0xaa => .ok .I32TruncSF64 r1
    | 0xab => .ok .I32TruncUF64 r1
    | 0xac => .ok .I64ExtendSI32 r1
    | 0xad => .ok .I64ExtendUI32 r1
    | 0xae => .ok .I64TruncSF32 r1
    | 0xaf => .ok .I64TruncUF32 r1
    | 0xb0 => .ok .I64TruncSF64 r1
    | 0xb1 => .ok .I64TruncUF64 r1
    | 0xb2 => .ok .F32ConvertSI32 r1
    | 0xb3 => .ok .F32ConvertUI32 r1
    | 0xb4 => .ok .F32ConvertSI64 r1
    | 0xb5 => .ok .F32ConvertUI64 r1
    | 0xb6 => .ok .F32DemoteF64 r1
    | 0xb7 => .ok .F64ConvertSI32 r1
    | 0xb8 => .ok .F64ConvertUI32 r1
    | 0xb9 => .ok .F64ConvertSI64 r1
    | 0xba => .ok .F64ConvertUI64 r1
    | 0xbb => .ok .F64PromoteF32 r1
    | 0xbc => .ok .I32ReinterpretF32 r1
    | 0xbd => .ok .I64ReinterpretF64 r1
    | 0xbe => .ok .F32ReinterpretI32 r1
    | 0xbf => .ok .F64ReinterpretI64 r1
    | v => .err (.UnknownOpcode v) r1

/-- `usize::MAX` on the 64-bit targets the crate builds for. -/
def usizeMax : Nat := 2 ^ 64 - 1

/-- Lift a plain deserializer step into the fuelled world
(`none` = "still running"). -/
def DRes.bindO {α β : Type} (x : DRes α) (f : α → Reader → Option (DRes β)) :
    Option (DRes β) :=
  match x with
  | .ok a r => f a r
  | .err e r => some (.err e r)

/-- Map over the value of a fuelled deserializer result. -/
def omapD {α β : Type} (x : Option (DRes α)) (f : α → β) : Option (DRes β) :=
  match x with
  | none => none
  | some (.ok a r) => some (.ok (f a) r)
  | some (.err e r) => some (.err e r)

/-- `Instructions` (`src/elements/ops.rs`): a decoded function body. -/
structure Instructions where
  ins : List Instruction

/-- `InitExpr` (`src/elements/ops.rs`): a decoded initializer expression. -/
structure InitExpr where
  ins : List Instruction

/-- Loop of `Instructions::deserialize`: track `block_count` (start 1),
`End` decrements, `Block`/`Loop`/`If` increment with `checked_add`
(overflow at `usize::MAX` is `Other("too many instructions")`), push every
instruction, stop when the count reaches zero.  In Rust this loop diverges
on a cursor that yields phantom zero bytes forever, hence the fuel. -/
def instructionsLoopF : Nat → Nat → Reader → Option (DRes (List Instruction))
  | 0, _, _ => none
  | fuel + 1, blockCount, r =>
    match Instruction.deserialize r with
    | .err e r1 => some (.err e r1)
    | .ok instr r1 =>
      if instr.is_terminal then
        if blockCount - 1 = 0 then some (.ok [instr] r1)
        else
          match instructionsLoopF fuel (blockCount - 1) r1 with
          | none => none
          | some (.err e r2) => some (.err e r2)
          | some (.ok l r2) => some (.ok (instr :: l) r2)
      else if instr.is_block then
        if blockCount + 1 ≤ usizeMax then
          match instructionsLoopF fuel (blockCount + 1) r1 with
          | none => none
          | some (.err e r2) => some (.err e r2)
          | some (.ok l r2) => some (.ok (instr :: l) r2)
        else some (.err (.Other "too many instructions") r1)
      else
        match instructionsLoopF fuel blockCount r1 with
        | none => none
        | some (.err e r2) => some (.err e r2)
        | some (.ok l r2) => some (.ok (instr :: l) r2)

/-- `Instructions::deserialize` (fuelled). -/
def Instructions.deserializeF (fuel : Nat) (r : Reader) : Option (DRes Instructions) :=
  omapD (instructionsLoopF fuel 1 r) Instructions.mk

/-- Loop of `InitExpr::deserialize`: decode instructions until the first
terminal one.  `ins` mirrors the local vector of the source, which is
created empty and never pushed to. -/
def initExprLoopF : Nat → List Instruction → Reader → Option (DRes (List Instruction))
  | 0, _, _ => none
  | fuel + 1, ins, r =>
    match Instruction.deserialize r with
    | .err e r1 => some (.err e r1)
    | .ok i r1 =>
      if i.is_terminal then some (.ok ins r1)
      else initExprLoopF fuel ins r1

/-- `InitExpr::deserialize` (fuelled). -/
def InitExpr.deserializeF (fuel : Nat) (r : Reader) : Option (DRes InitExpr) :=
  omapD (initExprLoopF fuel [] r) InitExpr.mk

/-- `ResizableLimits` (`src/elements/import_entry.rs`). -/
structure ResizableLimits where
  initial : Nat
  maximum : Option Nat
  deriving DecidableEq, Repr

/-- `ResizableLimits::deserialize`: flags byte in `{0, 1}`, `VarUint32`
initial, optional `VarUint32` maximum when flag bit 0 is set. -/
def ResizableLimits.deserialize (r : Reader) : DRes ResizableLimits :=
  (Uint8.deserialize r).bind fun flags r1 =>
    if flags = 0x00 ∨ flags = 0x01 then
      (VarUint32.deserialize r1).bind fun initial r2 =>
        if flags &&& 0x01 ≠ 0 then
          (VarUint32.deserialize r2).bind fun m r3 => .ok ⟨initial, some m⟩ r3
        else .ok ⟨initial, none⟩ r2
    else .err (.InvalidLimitsFlags flags) r1

/-- `TableType` (`src/elements/import_entry.rs`). -/
structure TableType where
  elem_type : TableElementType
  limits : ResizableLimits
  deriving DecidableEq, Repr

/-- `TableType::deserialize`: element type then limits. -/
def TableType.deserialize (r : Reader) : DRes TableType :=
  (TableElementType.deserialize r).bind fun e r1 =>
    (ResizableLimits.deserialize r1).bind fun l r2 => .ok ⟨e, l⟩ r2

/-- `GlobalType` (`src/elements/import_entry.rs`). -/
structure GlobalType where
  content_type : ValueType
  is_mutable : Bool
  deriving DecidableEq, Repr

/-- `GlobalType::deserialize`: value type then `VarUint1` mutability. -/
def GlobalType.deserialize (r : Reader) : DRes GlobalType :=
  (ValueType.deserialize r).bind fun t r1 =>
    (VarUint1.deserialize r1).bind fun m r2 => .ok ⟨t, m⟩ r2

/-- `External` (`src/elements/import_entry.rs`). -/
inductive External where
  | Function (typeIdx : Nat)
  | Table (t : TableType)
  | Memory (l : ResizableLimits)
  | Global (g : GlobalType)
  deriving DecidableEq, Repr

/-- `External::deserialize`: the discriminator is a `VarInt7` whose value is
reinterpreted as `u8` (`let kind: u8 = VarInt7::deserialize(reader)?.into()`),
then `0..3` select the four variants. -/
def External.deserialize (r : Reader) : DRes External :=
  (VarInt7.deserialize r).bind fun v r1 =>
    let kind := i8ToU8 v
    if kind = 0x00 then
      (VarUint32.deserialize r1).bind fun i r2 => .ok (.Function i) r2
    else if kind = 0x01 then
      (TableType.deserialize r1).bind fun t r2 => .ok (.Table t) r2
    else if kind = 0x02 then
      (ResizableLimits.deserialize r1).bind fun l r2 => .ok (.Memory l) r2
    else if kind = 0x03 then
      (GlobalType.deserialize r1).bind fun g r2 => .ok (.Global g) r2
    else .err (.UnknownExternalKind kind) r1

/-- `ImportEntry` (`src/elements/import_entry.rs`). -/
structure ImportEntry where
  module_str : WStr
  field_str : WStr
  external : External
  deriving DecidableEq, Repr

/-- `ImportEntry::deserialize`: module string, field string, external. -/
def ImportEntry.deserialize (r : Reader) : DRes ImportEntry :=
  (Str.deserialize r).bind fun m r1 =>
    (Str.deserialize r1).bind fun f r2 =>
      (External.deserialize r2).bind fun e r3 => .ok ⟨m, f, e⟩ r3

/-- `Internal` (`src/elements/export_entry.rs`). -/
inductive Internal where
  | Function (i : Nat)
  | Table (i : Nat)
  | Memory (i : Nat)
  | Global (i : Nat)
  deriving DecidableEq, Repr

/-- `Internal::deserialize`: `VarUint7` kind in `{0..3}`, then a
`VarUint32` index. -/
def Internal.deserialize (r : Reader) : DRes Internal :=
  (VarUint7.deserialize r).bind fun kind r1 =>
    if kind = 0x00 then
      (VarUint32.deserialize r1).bind fun i r2 => .ok (.Function i) r2
    else if kind = 0x01 then
      (VarUint32.deserialize r1).bind fun i r2 => .ok (.Table i) r2
    else if kind = 0x02 then
      (VarUint32.deserialize r1).bind fun i r2 => .ok (.Memory i) r2
    else if kind = 0x03 then
      (VarUint32.deserialize r1).bind fun i r2 => .ok (.Global i) r2
    else .err (.UnknownInternalKind kind) r1

/-- `ExportEntry` (`src/elements/export_entry.rs`). -/
structure ExportEntry where
  field_str : WStr
  internal : Internal
  deriving DecidableEq, Repr

/-- `ExportEntry::deserialize`: name string then internal reference. -/
def ExportEntry.deserialize (r : Reader) : DRes ExportEntry :=
  (Str.deserialize r).bind fun f r1 =>
    (Internal.deserialize r1).bind fun i r2 => .ok ⟨f, i⟩ r2

/-- `GlobalEntry` (`src/elements/global_entry.rs`). -/
structure GlobalEntry where
  global_type : GlobalType
  init_expr : InitExpr

/-- `GlobalEntry::deserialize` (fuelled through `InitExpr`). -/
def GlobalEntry.deserializeF (fuel : Nat) (r : Reader) : Option (DRes GlobalEntry) :=
  (GlobalType.deserialize r).bindO fun gt r1 =>
    omapD (InitExpr.deserializeF fuel r1) fun ie => ⟨gt, ie⟩

/-- `ElementSegment` (`src/elements/segment.rs`). -/
structure ElementSegment where
  index : Nat
  offset : Option InitExpr
  members : List Nat

/-- `ElementSegment::deserialize`: `VarUint32` table index, `InitExpr`
offset, counted `VarUint32` function indices. -/
def ElementSegment.deserializeF (fuel : Nat) (r : Reader) : Option (DRes ElementSegment) :=
  (VarUint32.deserialize r).bindO fun index r1 =>
    match InitExpr.deserializeF fuel r1 with
    | none => none
    | some (.err e r2) => some (.err e r2)
    | some (.ok offset r2) =>
      some ((countedList VarUint32.deserialize r2).bind fun members r3 =>
        .ok ⟨index, some offset, members⟩ r3)

/-- `DataSegment` (`src/elements/segment.rs`). -/
structure DataSegment where
  index : Nat
  offset : Option InitExpr
  value : List Nat

/-- `DataSegment::deserialize`: `VarUint32` memory index, `InitExpr` offset,
`VarUint32` length, then `buffered_read!` with the 16384-byte values
buffer. -/
def DataSegment.deserializeF (fuel : Nat) (r : Reader) : Option (DRes DataSegment) :=
  (VarUint32.deserialize r).bindO fun index r1 =>
    match InitExpr.deserializeF fuel r1 with
    | none => none
    | some (.err e r2) => some (.err e r2)
    | some (.ok offset r2) =>
      some ((VarUint32.deserialize r2).bind fun len r3 =>
        (bufferedRead 16384 len r3).bind fun v r4 =>
          .ok ⟨index, some offset, v⟩ r4)

/-- `Func` (`src/elements/func.rs`): a `VarUint32` type index. -/
def Func.deserialize (r : Reader) : DRes Nat :=
  (VarUint32.deserialize r).bind fun u r1 => .ok u r1

/-- `Local` (`src/elements/func.rs`). -/
structure Local where
  count : Nat
  value_type : ValueType
  deriving DecidableEq, Repr

/-- `Local::deserialize`: `VarUint32` count then value type. -/
def Local.deserialize (r : Reader) : DRes Local :=
  (VarUint32.deserialize r).bind fun c r1 =>
    (ValueType.deserialize r1).bind fun t r2 => .ok ⟨c, t⟩ r2

/-- `u32::MAX`. -/
def u32Max : Nat := 2 ^ 32 - 1

/-- One `checked_add` step of the locals-count fold in
`FuncBody::deserialize`. -/
def localsStep (acc : Option Nat) (l : Local) : Option Nat :=
  acc.bind fun a => if a + l.count ≤ u32Max then some (a + l.count) else none

/-- The `try_fold(0u32, checked_add)` over local counts in
`FuncBody::deserialize`; `none` means a `u32` overflow occurred. -/
def localsSumChecked (locals : List Local) : Option Nat :=
  locals.foldl localsStep (some 0)

/-- `SectionReader` (`src/elements/sections.rs`): declared length plus the
in-memory cursor over the payload (`eofError := false`). -/
structure SectionReader where
  declared : Nat
  inner : Reader
  deriving DecidableEq, Repr

/-- `SectionReader::new`: `VarUint32` length, then `buffered_read!` of that
many bytes (16384-byte entries buffer) into the cursor. -/
def SectionReader.new (r : Reader) : DRes SectionReader :=
  (VarUint32.deserialize r).bind fun len r1 =>
    (bufferedRead 16384 len r1).bind fun v r2 =>
      .ok ⟨len, ⟨v, false⟩⟩ r2

/-- `io::Cursor::position`: bytes consumed from the payload. -/
def SectionReader.position (s : SectionReader) : Nat :=
  s.declared - s.inner.bytes.length

/-- `SectionReader::close`: fail with `io::ErrorKind::InvalidData` unless
the cursor position equals the declared length. -/
def SectionReader.close (s : SectionReader) : Except IOErrorKind Unit :=
  if s.position ≠ s.declared then .error .InvalidData else .ok ()

/-- `FuncBody` (`src/elements/func.rs`). -/
structure FuncBody where
  locals : List Local
  instructions : Instructions

/-- `FuncBody::deserialize`: a body sub-reader, counted locals, the
`checked_add` sum guard (`TooManyLocals`), the instruction sequence, then
exact-consumption close. -/
def FuncBody.deserializeF (fuel : Nat) (r : Reader) : Option (DRes FuncBody) :=
  match SectionReader.new r with
  | .err e r1 => some (.err e r1)
  | .ok sr rOut =>
    match countedList Local.deserialize sr.inner with
    | .err e _ => some (.err e rOut)
    | .ok locals rIn1 =>
      match localsSumChecked locals with
      | none => some (.err .TooManyLocals rOut)
      | some _ =>
        match Instructions.deserializeF fuel rIn1 with
        | none => none
        | some (.err e _) => some (.err e rOut)
        | some (.ok instrs rIn2) =>
          match SectionReader.close ⟨sr.declared, rIn2⟩ with
          | .error k => some (.err (ioErrorToError k) rOut)
          | .ok _ => some (.ok ⟨locals, instrs⟩ rOut)

/-- `CustomSection` (`src/elements/sections.rs`). -/
structure CustomSection where
  name : WStr
  payload : List Nat
  deriving DecidableEq, Repr

/-- `CustomSection::deserialize`: `VarUint32` length, `buffered_read!` of
the whole payload, then a name string decoded from an in-memory cursor; the
payload is whatever follows the name in the buffer (no closure check). -/
def CustomSection.deserialize (r : Reader) : DRes CustomSection :=
  (VarUint32.deserialize r).bind fun len r1 =>
    (bufferedRead 16384 len r1).bind fun buf r2 =>
      match Str.deserialize ⟨buf, false⟩ with
      | .err e _ => .err e r2
      | .ok name rc => .ok ⟨name, rc.bytes⟩ r2

/-- Common shape of the structured list sections: sub-reader, counted
payload, exact-consumption close. -/
def listSection {α : Type} (dec : Reader → DRes α) (r : Reader) : DRes (List α) :=
  (SectionReader.new r).bind fun sr rOut =>
    match countedList dec sr.inner with
    | .err e _ => .err e rOut
    | .ok l rIn =>
      match SectionReader.close ⟨sr.declared, rIn⟩ with
      | .error k => .err (ioErrorToError k) rOut
      | .ok _ => .ok l rOut

/-- `n` successive fuelled decodings (tail of `CountedList::deserialize`
when the element decoder is fuelled). -/
def countedListAuxF {α : Type} (dec : Reader → Option (DRes α)) :
    Nat → Reader → Option (DRes (List α))
  | 0, r => some (.ok [] r)
  | n + 1, r =>
    match dec r with
    | none => none
    | some (.err e r1) => some (.err e r1)
    | some (.ok a r1) =>
      match countedListAuxF dec n r1 with
      | none => none
      | some (.err e r2) => some (.err e r2)
      | some (.ok l r2) => some (.ok (a :: l) r2)

/-- `CountedList::deserialize` for fuelled element decoders. -/
def countedListF {α : Type} (dec : Reader → Option (DRes α)) (r : Reader) :
    Option (DRes (List α)) :=
  (VarUint32.deserialize r).bindO fun n r1 => countedListAuxF dec n r1

/-- `listSection` for fuelled element decoders. -/
def listSectionF {α : Type} (dec : Reader → Option (DRes α)) (r : Reader) :
    Option (DRes (List α)) :=
  match SectionReader.new r with
  | .err e r1 => some (.err e r1)
  | .ok sr rOut =>
    match countedListF dec sr.inner with
    | none => none
    | some (.err e _) => some (.err e rOut)
    | some (.ok l rIn) =>
      match SectionReader.close ⟨sr.declared, rIn⟩ with
      | .error k => some (.err (ioErrorToError k) rOut)
      | .ok _ => some (.ok l rOut)

/-- `TypeSection::deserialize`. -/
def TypeSection.deserialize : Reader → DRes (List FunctionType) :=
  listSection FunctionType.deserialize

/-- `ImportSection::deserialize`. -/
def ImportSection.deserialize : Reader → DRes (List ImportEntry) :=
  listSection ImportEntry.deserialize

/-- `FunctionSection::deserialize`. -/
def FunctionSection.deserialize : Reader → DRes (List Nat) :=
  listSection Func.deserialize

/-- `TableSection::deserialize`. -/
def TableSection.deserialize : Reader → DRes (List TableType) :=
  listSection TableType.deserialize

/-- `MemorySection::deserialize`. -/
def MemorySection.deserialize : Reader → DRes (List ResizableLimits) :=
  listSection ResizableLimits.deserialize

/-- `GlobalSection::deserialize`. -/
def GlobalSection.deserializeF (fuel : Nat) : Reader → Option (DRes (List GlobalEntry)) :=
  listSectionF (GlobalEntry.deserializeF fuel)

/-- `ExportSection::deserialize`. -/
def ExportSection.deserialize : Reader → DRes (List ExportEntry) :=
  listSection ExportEntry.deserialize

/-- `ElementSection::deserialize`. -/
def ElementSection.deserializeF (fuel : Nat) : Reader → Option (DRes (List ElementSegment)) :=
  listSectionF (ElementSegment.deserializeF fuel)

/-- `CodeSection::deserialize`. -/
def CodeSection.deserializeF (fuel : Nat) : Reader → Option (DRes (List FuncBody)) :=
  listSectionF (FuncBody.deserializeF fuel)

/-- `DataSection::deserialize`. -/
def DataSection.deserializeF (fuel : Nat) : Reader → Option (DRes (List DataSegment)) :=
  listSectionF (DataSegment.deserializeF fuel)

/-- `Section` (`src/elements/sections.rs`). -/
inductive Section where
  | Unparsed (id : Nat) (payload : List Nat)
  | Custom (c : CustomSection)
  | TypeSec (types : List FunctionType)
  | Import (entries : List ImportEntry)
  | Function (funcs : List Nat)
  | Table (types : List TableType)
  | Memory (limits : List ResizableLimits)
  | Global (globals : List GlobalEntry)
  | Export (entries : List ExportEntry)
  | Start (idx : Nat)
  | Element (segs : List ElementSegment)
  | DataCount (n : Nat)
  | Code (bodies : List FuncBody)
  | Data (segs : List DataSegment)

/-- `Section::deserialize`: a `VarUint7` id (any failure there becomes
`UnexpectedEof`), then the per-id payload decoder.  Ids 8 (`Start`) and 12
(`DataCount`) read a `VarUint32` from a fresh sub-reader and close it; an
unknown id keeps the raw payload. -/
def Section.deserializeF (fuel : Nat) (r : Reader) : Option (DRes Section) :=
  match VarUint7.deserialize r with
  | .err _ r1 => some (.err .UnexpectedEof r1)
  | .ok id r1 =>
    match id with
    | 0 => some ((CustomSection.deserialize r1).bind fun c r2 => .ok (.Custom c) r2)
    | 1 => some ((TypeSection.deserialize r1).bind fun l r2 => .ok (.TypeSec l) r2)
    | 2 => some ((ImportSection.deserialize r1).bind fun l r2 => .ok (.Import l) r2)
    | 3 => some ((FunctionSection.deserialize r1).bind fun l r2 => .ok (.Function l) r2)
    | 4 => some ((TableSection.deserialize r1).bind fun l r2 => .ok (.Table l) r2)
    | 5 => some ((MemorySection.deserialize r1).bind fun l r2 => .ok (.Memory l) r2)
    | 6 => omapD (GlobalSection.deserializeF fuel r1) Section.Global
    | 7 => some ((ExportSection.deserialize r1).bind fun l r2 => .ok (.Export l) r2)
    | 8 =>
      some ((SectionReader.new r1).bind fun sr rOut =>
        match VarUint32.deserialize sr.inner with
        | .err e _ => .err e rOut
        | .ok v rIn =>
          match SectionReader.close ⟨sr.declared, rIn⟩ with
          | .error k => .err (ioErrorToError k) rOut
          | .ok _ => .ok (.Start v) rOut)
    | 9 => omapD (ElementSection.deserializeF fuel r1) Section.Element
    | 10 => omapD (CodeSection.deserializeF fuel r1) Section.Code
    | 11 => omapD (DataSection.deserializeF fuel r1) Section.Data
    | 12 =>
      some ((SectionReader.new r1).bind fun sr rOut =>
        match VarUint32.deserialize sr.inner with
        | .err e _ => .err e rOut
        | .ok v rIn =>
          match SectionReader.close ⟨sr.declared, rIn⟩ with
          | .error k => .err (ioErrorToError k) rOut
          | .ok _ => .ok (.DataCount v) rOut)
    | _ =>
      some ((SectionReader.new r1).bind fun sr rOut =>
        .ok (.Unparsed id sr.inner.bytes) rOut)

/-- `Module` (`src/elements/module.rs`); named `WModule` because Lean's
library already uses `Module`. -/
structure WModule where
  magic : Nat
  version : Nat
  sections : List Section

/-- `Module::default`: magic `\0asm` as a little-endian `u32`, version 1. -/
def WModule.default : WModule :=
  ⟨fromLE4 [0x00, 0x61, 0x73, 0x6d], 1, []⟩

/-- The section loop of `Module::deserialize`: `UnexpectedEof` from
`Section::deserialize` ends the module, any other failure aborts. -/
def sectionsLoopF : Nat → List Section → Reader → Option (DRes (List Section))
  | 0, _, _ => none
  | fuel + 1, acc, r =>
    match Section.deserializeF fuel r with
    | none => none
    | some (.err e r1) =>
      if e = .UnexpectedEof then some (.ok acc r1) else some (.err e r1)
    | some (.ok s r1) => sectionsLoopF fuel (acc ++ [s]) r1

/-- `Module::deserialize` (`src/elements/module.rs`): 4 magic bytes read in
one call, little-endian `u32` version, then the section loop. -/
def WModule.deserializeF (fuel : Nat) (r : Reader) : Option (DRes WModule) :=
  match r.readBuf 4 with
  | .err e r1 => some (.err e r1)
  | .ok buf r1 =>
    if buf ≠ [0x00, 0x61, 0x73, 0x6d] then some (.err .InvalidMagic r1)
    else
      match Uint32.deserialize r1 with
      | .err e r2 => some (.err e r2)
      | .ok version r2 =>
        if version ≠ 1 then some (.err (.UnsupportedVersion version) r2)
        else
          omapD (sectionsLoopF fuel [] r2)
            (fun secs => { WModule.default with sections := secs })

/-- The spec's running block-depth counter for a decoded instruction
sequence: start value, `−1` on `End`, `+1` on `Block`/`Loop`/`If`. -/
def depthStep (d : Nat) (i : Instruction) : Nat :=
  if i.is_terminal then d - 1 else if i.is_block then d + 1 else d

/-!  Helper lemmas shared by several claims. -/

/-- A read that fits inside the remaining bytes delivers exactly the
requested prefix. -/
theorem readBuf_exact {l : List Nat} {e : Bool} {n : Nat} (h : n ≤ l.length) :
    Reader.readBuf ⟨l, e⟩ n = .ok (l.take n) ⟨l.drop n, e⟩ := by
  unfold Reader.readBuf
  rcases Nat.eq_zero_or_pos n with hn | hn
  · subst hn; simp
  · cases l with
    | nil => simp at h; omega
    | cons a t =>
      have hmin : min n (t.length + 1) = n := Nat.min_eq_left (by simpa using h)
      simp [hmin, if_neg (by omega : ¬ n = 0)]

/-- One-byte reads from a nonempty reader. -/
theorem readBuf_one {b : Nat} {l : List Nat} {e : Bool} :
    Reader.readBuf ⟨b :: l, e⟩ 1 = .ok [b] ⟨l, e⟩ :=
  readBuf_exact (by simp)

/-- A read from an exhausted cursor (`eofError = false`) succeeds with a
zero-filled buffer and does not move the cursor. -/
theorem readBuf_exhausted_cursor (n : Nat) :
    Reader.readBuf ⟨[], false⟩ n = .ok (List.replicate n 0) ⟨[], false⟩ := by
  unfold Reader.readBuf
  rcases Nat.eq_zero_or_pos n with hn | hn
  · subst hn; simp
  · simp [Nat.pos_iff_ne_zero.mp hn]

/-- A reused-buffer byte read from a nonempty reader delivers the next
byte. -/
theorem readByteInto_cons {b : Nat} {l : List Nat} {e : Bool} {prev : Nat} :
    Reader.readByteInto ⟨b :: l, e⟩ prev = .ok b ⟨l, e⟩ := rfl

/-- A reused-buffer byte read from an exhausted cursor succeeds without
moving the cursor and leaves the stale buffer byte visible. -/
theorem readByteInto_exhausted_cursor (prev : Nat) :
    Reader.readByteInto ⟨[], false⟩ prev = .ok prev ⟨[], false⟩ := rfl

/-- **C1.**  The claim says the `InitExpr` decoder reads instructions up to
the first `END` and that the returned `InitExpr` retains them.  The code
reads up to the first `END` but never pushes into the local vector, so the
caller always receives an empty expression: on `41 05 0B`
(`i32.const 5; end`) the first decoded instruction is the non-`END`
`I32Const 5`, both bytes are consumed, yet the result is `InitExpr([])`. -/
theorem initExpr_discards_instructions :
    Instruction.deserialize ⟨[0x41, 0x05, 0x0b], true⟩ =
      .ok (.I32Const 5) ⟨[0x0b], true⟩ ∧
    InitExpr.deserializeF 3 ⟨[0x41, 0x05, 0x0b], true⟩ =
      some (.ok (InitExpr.mk []) ⟨[], true⟩) :=
  ⟨rfl, rfl⟩

/-- **C2 (counterexample).**  The claim says a `Start` section whose
declared length is too short for its `VarUint32` payload fails rather than
yielding a value.  On `08 00` (id 8, declared length 0) the exhausted
cursor returns zero bytes with success, the `VarUint32` decoder reads the
phantom zero still sitting in its never-written 1-byte buffer, the cursor
position (0) equals the declared length (0), and the decode succeeds with
`Start(0)`. -/
theorem start_section_zero_length_succeeds :
    Section.deserializeF 1 ⟨[0x08, 0x00], true⟩ =
      some (.ok (.Start 0) ⟨[], true⟩) := rfl

/-- **C2 (amended).**  The section sub-reader returns no input bytes past
its declared end, but by succeeding with a zero-length read that leaves
the destination buffer unchanged, not by failing (first conjunct: the
cursor does not move and no error is raised); on close the decode fails
unless the cursor position equals the declared length exactly (second
conjunct).  The "too short for its VarUint32 payload" behaviour therefore
splits: a declared length that truncates a *multi-byte* `VarUint32`
(`08 01 85`) fails with `InvalidVarUint32`, because the stale continuation
byte is re-read until the shift guard fires (third conjunct); a declared
length of 0 succeeds with a phantom zero (`0C 00` gives `DataCount(0)`,
fourth conjunct — the `Start` instance is the counterexample); and a
payload decoder that stops short of the declared length fails via the
close check (fifth conjunct, `08 02 00 00`). -/
theorem section_subreader_bounds :
    (∀ prev : Nat, Reader.readByteInto ⟨[], false⟩ prev = .ok prev ⟨[], false⟩) ∧
    (∀ s : SectionReader, s.close = .ok () ↔ s.position = s.declared) ∧
    Section.deserializeF 1 ⟨[0x08, 0x01, 0x85], true⟩ =
      some (.err .InvalidVarUint32 ⟨[], true⟩) ∧
    Section.deserializeF 1 ⟨[0x0C, 0x00], true⟩ =
      some (.ok (.DataCount 0) ⟨[], true⟩) ∧
    Section.deserializeF 1 ⟨[0x08, 0x02, 0x00, 0x00], true⟩ =
      some (.err (ioErrorToError .InvalidData) ⟨[], true⟩) := by
  refine ⟨readByteInto_exhausted_cursor, fun s => ?_, rfl, rfl, rfl⟩
  unfold SectionReader.close
  split <;> simp_all

/-- **C3.**  The claim says every fixed-width codec calls the reader
repeatedly until its byte count is satisfied and that `Uint32`/`Uint64`
fail when fewer than 4/8 bytes remain.  The code issues a single `read`
call on a zero-initialised buffer and uses the whole buffer, so a section
sub-reader holding only `01 00` yields `Uint32 = 1` (missing bytes read as
zero), the same two bytes under the top-level `BufReader` also succeed, and
an exhausted sub-reader yields `Uint64 = 0` without any failure. -/
theorem uint32_uint64_zero_padding :
    Uint32.deserialize ⟨[1, 0], false⟩ = .ok 1 ⟨[], false⟩ ∧
    Uint32.deserialize ⟨[1, 0], true⟩ = .ok 1 ⟨[], true⟩ ∧
    Uint64.deserialize ⟨[], false⟩ = .ok 0 ⟨[], false⟩ :=
  ⟨rfl, rfl, rfl⟩

/-- **C4.**  Magic/version gate of `Module::deserialize`: any input whose
first 4 bytes differ from `00 61 73 6D` fails with `InvalidMagic` having
consumed exactly those 4 bytes, and any valid-magic input whose following
little-endian `u32` is not 1 fails with `UnsupportedVersion` carrying that
value, having consumed exactly 8 bytes. -/
theorem module_magic_version_gate :
    (∀ (b0 b1 b2 b3 : Nat) (rest : List Nat) (fuel : Nat),
        [b0, b1, b2, b3] ≠ [0x00, 0x61, 0x73, 0x6d] →
        WModule.deserializeF fuel ⟨b0 :: b1 :: b2 :: b3 :: rest, true⟩ =
          some (.err .InvalidMagic ⟨rest, true⟩)) ∧
    (∀ (c0 c1 c2 c3 : Nat) (rest : List Nat) (fuel : Nat),
        fromLE4 [c0, c1, c2, c3] ≠ 1 →
        WModule.deserializeF fuel
            ⟨0x00 :: 0x61 :: 0x73 :: 0x6d :: c0 :: c1 :: c2 :: c3 :: rest, true⟩ =
          some (.err (.UnsupportedVersion (fromLE4 [c0, c1, c2, c3])) ⟨rest, true⟩)) := by
  constructor
  · intro b0 b1 b2 b3 rest fuel hne
    have h4 : Reader.readBuf ⟨b0 :: b1 :: b2 :: b3 :: rest, true⟩ 4 =
        .ok [b0, b1, b2, b3] ⟨rest, true⟩ := by
      simpa using readBuf_exact (l := b0 :: b1 :: b2 :: b3 :: rest) (e := true) (by simp)
    unfold WModule.deserializeF
    rw [h4]
    simp [hne]
  · intro c0 c1 c2 c3 rest fuel hv
    have h4 : Reader.readBuf ⟨0x00 :: 0x61 :: 0x73 :: 0x6d :: c0 :: c1 :: c2 :: c3 :: rest, true⟩ 4 =
        .ok [0x00, 0x61, 0x73, 0x6d] ⟨c0 :: c1 :: c2 :: c3 :: rest, true⟩ := by
      simpa using readBuf_exact
        (l := 0x00 :: 0x61 :: 0x73 :: 0x6d :: c0 :: c1 :: c2 :: c3 :: rest) (e := true) (by simp)
    have h8 : Reader.readBuf ⟨c0 :: c1 :: c2 :: c3 :: rest, true⟩ 4 =
        .ok [c0, c1, c2, c3] ⟨rest, true⟩ := by
      simpa using readBuf_exact (l := c0 :: c1 :: c2 :: c3 :: rest) (e := true) (by simp)
    unfold WModule.deserializeF
    rw [h4]
    simp [Uint32.deserialize, DRes.bind, h8, hv]

/-- Witness for `module_magic_version_gate`: the spec's scenarios S2
(`00 61 73 6E …` ⇒ `InvalidMagic`) and S3 (version 2 ⇒
`UnsupportedVersion(2)`). -/
theorem module_magic_version_gate_witness :
    WModule.deserializeF 0 ⟨[0x00, 0x61, 0x73, 0x6e], true⟩ =
      some (.err .InvalidMagic ⟨[], true⟩) ∧
    WModule.deserializeF 0 ⟨[0x00, 0x61, 0x73, 0x6d, 0x02, 0x00, 0x00, 0x00], true⟩ =
      some (.err (.UnsupportedVersion (fromLE4 [2, 0, 0, 0])) ⟨[], true⟩) :=
  ⟨module_magic_version_gate.1 0x00 0x61 0x73 0x6e [] 0 (by decide),
   module_magic_version_gate.2 2 0 0 0 [] 0 (by decide)⟩

/-- **C5 (counterexample).**  The claim says the module decode succeeds
*exactly* when the input ends at the start of a new section.  This input
ends *inside* a declared custom-section payload (it promises 2 payload
bytes but supplies 1), yet the decode succeeds: `buffered_read!` ignores
the short read count, zero-pads the payload, and the module comes back with
a fabricated custom section. -/
theorem module_accepts_truncated_custom_payload :
    WModule.deserializeF 3
        ⟨[0x00, 0x61, 0x73, 0x6d, 0x01, 0x00, 0x00, 0x00, 0x00, 0x02, 0x00], true⟩ =
      some (.ok ⟨fromLE4 [0x00, 0x61, 0x73, 0x6d], 1, [.Custom ⟨[], [0]⟩]⟩ ⟨[], true⟩) := rfl

/-- Any section id whose input ends right after the id byte makes the whole
module decode abort: every dispatch branch immediately reads from the
exhausted top-level reader, whose `io` error becomes `HeapOther`, not the
loop-terminating `UnexpectedEof`. -/
theorem section_single_id (f id : Nat) :
    Section.deserializeF f ⟨[id], true⟩ =
      some (.err (ioErrorToError .UnexpectedEof) ⟨[], true⟩) := by
  have h1 : VarUint7.deserialize ⟨[id], true⟩ = .ok id ⟨[], true⟩ := by
    simp [VarUint7.deserialize, readBuf_one, DRes.bind]
  unfold Section.deserializeF
  simp only [h1]
  split <;> rfl

/-- Any section id whose input ends inside the declared-length `VarUint32`
(a dangling continuation byte `0x80`) likewise aborts the module decode. -/
theorem section_id_dangling_length (f id : Nat) :
    Section.deserializeF f ⟨[id, 0x80], true⟩ =
      some (.err (ioErrorToError .UnexpectedEof) ⟨[], true⟩) := by
  have h1 : VarUint7.deserialize ⟨[id, 0x80], true⟩ = .ok id ⟨[0x80], true⟩ := by
    simp [VarUint7.deserialize, readBuf_one, DRes.bind]
  unfold Section.deserializeF
  simp only [h1]
  split <;> rfl

/-- **C5 (amended).**  After a valid preamble: the 8-byte smallest module
decodes to `Module{version = 1, sections = []}` (scenario S1); an input
that ends right after a section id byte fails; and an input that ends
inside the declared-length field fails.  (Unlike the original claim, ending
at a section boundary is *not* the only way to succeed — see the
counterexample with a truncated section payload.) -/
theorem module_eof_handling :
    (∀ fuel : Nat, 1 ≤ fuel →
        WModule.deserializeF fuel ⟨[0x00, 0x61, 0x73, 0x6d, 0x01, 0x00, 0x00, 0x00], true⟩ =
          some (.ok WModule.default ⟨[], true⟩)) ∧
    (∀ fuel id : Nat, 1 ≤ fuel →
        WModule.deserializeF fuel
            ⟨[0x00, 0x61, 0x73, 0x6d, 0x01, 0x00, 0x00, 0x00, id], true⟩ =
          some (.err (ioErrorToError .UnexpectedEof) ⟨[], true⟩)) ∧
    (∀ fuel id : Nat, 1 ≤ fuel →
        WModule.deserializeF fuel
            ⟨[0x00, 0x61, 0x73, 0x6d, 0x01, 0x00, 0x00, 0x00, id, 0x80], true⟩ =
          some (.err (ioErrorToError .UnexpectedEof) ⟨[], true⟩)) := by
  refine ⟨fun fuel hf => ?_, fun fuel id hf => ?_, fun fuel id hf => ?_⟩
  · cases fuel with
    | zero => omega
    | succ f => rfl
  · cases fuel with
    | zero => omega
    | succ f =>
      have hhdr : Reader.readBuf ⟨[0x00, 0x61, 0x73, 0x6d, 0x01, 0x00, 0x00, 0x00, id], true⟩ 4 =
          .ok [0x00, 0x61, 0x73, 0x6d] ⟨[0x01, 0x00, 0x00, 0x00, id], true⟩ := by
        simpa using readBuf_exact
          (l := [0x00, 0x61, 0x73, 0x6d, 0x01, 0x00, 0x00, 0x00, id]) (e := true) (by simp)
      have hver : Reader.readBuf ⟨[0x01, 0x00, 0x00, 0x00, id], true⟩ 4 =
          .ok [0x01, 0x00, 0x00, 0x00] ⟨[id], true⟩ := by
        simpa using readBuf_exact (l := [0x01, 0x00, 0x00, 0x00, id]) (e := true) (by simp)
      unfold WModule.deserializeF
      simp only [hhdr, Uint32.deserialize, DRes.bind, hver]
      norm_num [fromLE4]
      rw [sectionsLoopF]
      simp [section_single_id, omapD, ioErrorToError]
  · cases fuel with
    | zero => omega
    | succ f =>
      have hhdr : Reader.readBuf
          ⟨[0x00, 0x61, 0x73, 0x6d, 0x01, 0x00, 0x00, 0x00, id, 0x80], true⟩ 4 =
          .ok [0x00, 0x61, 0x73, 0x6d] ⟨[0x01, 0x00, 0x00, 0x00, id, 0x80], true⟩ := by
        simpa using readBuf_exact
          (l := [0x00, 0x61, 0x73, 0x6d, 0x01, 0x00, 0x00, 0x00, id, 0x80]) (e := true) (by simp)
      have hver : Reader.readBuf ⟨[0x01, 0x00, 0x00, 0x00, id, 0x80], true⟩ 4 =
          .ok [0x01, 0x00, 0x00, 0x00] ⟨[id, 0x80], true⟩ := by
        simpa using readBuf_exact (l := [0x01, 0x00, 0x00, 0x00, id, 0x80]) (e := true) (by simp)
      unfold WModule.deserializeF
      simp only [hhdr, Uint32.deserialize, DRes.bind, hver]
      norm_num [fromLE4]
      rw [sectionsLoopF]
      simp [section_id_dangling_length, omapD, ioErrorToError]

/-- Witness for `module_eof_handling` at fuel 1 and section id 3. -/
theorem module_eof_handling_witness :
    WModule.deserializeF 1 ⟨[0x00, 0x61, 0x73, 0x6d, 0x01, 0x00, 0x00, 0x00], true⟩ =
      some (.ok WModule.default ⟨[], true⟩) ∧
    WModule.deserializeF 1 ⟨[0x00, 0x61, 0x73, 0x6d, 0x01, 0x00, 0x00, 0x00, 0x03], true⟩ =
      some (.err (ioErrorToError .UnexpectedEof) ⟨[], true⟩) ∧
    WModule.deserializeF 1 ⟨[0x00, 0x61, 0x73, 0x6d, 0x01, 0x00, 0x00, 0x00, 0x03, 0x80], true⟩ =
      some (.err (ioErrorToError .UnexpectedEof) ⟨[], true⟩) :=
  ⟨module_eof_handling.1 1 (by decide),
   module_eof_handling.2.1 1 3 (by decide),
   module_eof_handling.2.2 1 3 (by decide)⟩

/-- One continuation step of the `VarUint32` loop: a byte with the
continuation bit set accumulates 7 payload bits, bumps the shift, and
leaves itself in the reused 1-byte buffer. -/
theorem varUint32Loop_cont (fuel res shift u8buf b : Nat) (l : List Nat) (e : Bool)
    (hb : 128 ≤ b) (hb' : b < 256) (hs : shift ≤ 31) :
    varUint32Loop (fuel + 1) res shift u8buf ⟨b :: l, e⟩ =
      varUint32Loop fuel (res ||| (((b &&& 0x7f) <<< shift) % 2 ^ 32)) (shift + 7) b ⟨l, e⟩ := by
  have hcont : ¬ b >>> 7 = 0 := by
    rw [Nat.shiftRight_eq_div_pow]
    rw [Nat.div_eq_zero_iff (by norm_num)]
    omega
  conv_lhs => rw [varUint32Loop.eq_def]
  simp [if_neg (by omega : ¬ shift > 31), readByteInto_cons, DRes.bind, hcont]

/-- A terminal byte at or above `0x10` has fewer than 4 leading zeros. -/
theorem leadingZeros8_lt_four {b : Nat} (hb : 16 ≤ b) : leadingZeros8 b < 4 := by
  unfold leadingZeros8
  split_ifs <;> omega

/-- **C6.**  `VarUint32` canonicality: five continuation bytes in a row
fail with `InvalidVarUint32` without touching a sixth byte, and a 5-byte
encoding whose terminal byte has non-zero bits outside the representable
32-bit range (terminal byte `≥ 0x10`) fails (with the `InvalidVarInt32`
variant the code uses on that path). -/
theorem varuint32_bounds :
    (∀ b1 b2 b3 b4 b5 : Nat, ∀ rest : List Nat, ∀ e : Bool,
        128 ≤ b1 → b1 < 256 → 128 ≤ b2 → b2 < 256 → 128 ≤ b3 → b3 < 256 →
        128 ≤ b4 → b4 < 256 → 128 ≤ b5 → b5 < 256 →
        VarUint32.deserialize ⟨b1 :: b2 :: b3 :: b4 :: b5 :: rest, e⟩ =
          .err .InvalidVarUint32 ⟨rest, e⟩) ∧
    (∀ b1 b2 b3 b4 b5 : Nat, ∀ rest : List Nat, ∀ e : Bool,
        128 ≤ b1 → b1 < 256 → 128 ≤ b2 → b2 < 256 → 128 ≤ b3 → b3 < 256 →
        128 ≤ b4 → b4 < 256 → 16 ≤ b5 → b5 < 128 →
        VarUint32.deserialize ⟨b1 :: b2 :: b3 :: b4 :: b5 :: rest, e⟩ =
          .err .InvalidVarInt32 ⟨rest, e⟩) := by
  constructor
  · intro b1 b2 b3 b4 b5 rest e h1 h1' h2 h2' h3 h3' h4 h4' h5 h5'
    unfold VarUint32.deserialize
    rw [varUint32Loop_cont _ _ _ _ _ _ _ h1 h1' (by omega),
      varUint32Loop_cont _ _ _ _ _ _ _ h2 h2' (by omega),
      varUint32Loop_cont _ _ _ _ _ _ _ h3 h3' (by omega),
      varUint32Loop_cont _ _ _ _ _ _ _ h4 h4' (by omega),
      varUint32Loop_cont _ _ _ _ _ _ _ h5 h5' (by omega)]
    unfold varUint32Loop
    simp
  · intro b1 b2 b3 b4 b5 rest e h1 h1' h2 h2' h3 h3' h4 h4' h5 h5'
    unfold VarUint32.deserialize
    rw [varUint32Loop_cont _ _ _ _ _ _ _ h1 h1' (by omega),
      varUint32Loop_cont _ _ _ _ _ _ _ h2 h2' (by omega),
      varUint32Loop_cont _ _ _ _ _ _ _ h3 h3' (by omega),
      varUint32Loop_cont _ _ _ _ _ _ _ h4 h4' (by omega)]
    have hterm : b5 >>> 7 = 0 := by
      rw [Nat.shiftRight_eq_div_pow]
      rw [Nat.div_eq_zero_iff (by norm_num)]
      omega
    unfold varUint32Loop
    simp [readByteInto_cons, DRes.bind, hterm, leadingZeros8_lt_four h5]

/-- Witness for `varuint32_bounds`: the spec's scenario S6
(`FF FF FF FF FF 7F` fails with `InvalidVarUint32`, the sixth byte left
unread) and the canonicality bound (`FF FF FF FF 7F` fails). -/
theorem varuint32_bounds_witness :
    VarUint32.deserialize ⟨[0xFF, 0xFF, 0xFF, 0xFF, 0xFF, 0x7F], true⟩ =
      .err .InvalidVarUint32 ⟨[0x7F], true⟩ ∧
    VarUint32.deserialize ⟨[0xFF, 0xFF, 0xFF, 0xFF, 0x7F], true⟩ =
      .err .InvalidVarInt32 ⟨[], true⟩ :=
  ⟨varuint32_bounds.1 0xFF 0xFF 0xFF 0xFF 0xFF [0x7F] true (by decide) (by decide)
      (by decide) (by decide) (by decide) (by decide) (by decide) (by decide)
      (by decide) (by decide),
   varuint32_bounds.2 0xFF 0xFF 0xFF 0xFF 0x7F [] true (by decide) (by decide)
      (by decide) (by decide) (by decide) (by decide) (by decide) (by decide)
      (by decide) (by decide)⟩

set_option maxRecDepth 8192 in
/-- **C8.**  Reserved zero bytes: `CallIndirect` (opcode `0x11`) fails with
`InvalidTableReference(b)` whenever the byte after its signature index is
nonzero and records the reference as 0 when it is zero; `CurrentMemory`
(`0x3F`) and `GrowMemory` (`0x40`) behave the same with
`InvalidMemoryReference(b)`. -/
theorem reserved_zero_bytes :
    (∀ (e : Bool) (pre rest : List Nat) (sig b : Nat),
        b < 256 →
        VarUint32.deserialize ⟨pre ++ b :: rest, e⟩ = .ok sig ⟨b :: rest, e⟩ →
        (b ≠ 0 → Instruction.deserialize ⟨0x11 :: (pre ++ b :: rest), e⟩ =
            .err (.InvalidTableReference b) ⟨rest, e⟩) ∧
        (b = 0 → Instruction.deserialize ⟨0x11 :: (pre ++ b :: rest), e⟩ =
            .ok (.CallIndirect sig 0) ⟨rest, e⟩)) ∧
    (∀ (e : Bool) (b : Nat) (rest : List Nat),
        b < 256 → b ≠ 0 →
        Instruction.deserialize ⟨0x3f :: b :: rest, e⟩ =
          .err (.InvalidMemoryReference b) ⟨rest, e⟩ ∧
        Instruction.deserialize ⟨0x40 :: b :: rest, e⟩ =
          .err (.InvalidMemoryReference b) ⟨rest, e⟩) ∧
    (∀ (e : Bool) (rest : List Nat),
        Instruction.deserialize ⟨0x3f :: 0 :: rest, e⟩ =
          .ok (.CurrentMemory 0) ⟨rest, e⟩ ∧
        Instruction.deserialize ⟨0x40 :: 0 :: rest, e⟩ =
          .ok (.GrowMemory 0) ⟨rest, e⟩) := by
  refine ⟨fun e pre rest sig b hb hsig => ?_, fun e b rest hb hbne => ?_, fun e rest => ?_⟩
  · have h17 : Uint8.deserialize ⟨0x11 :: (pre ++ b :: rest), e⟩ =
        .ok 0x11 ⟨pre ++ b :: rest, e⟩ := by
      simp [Uint8.deserialize, readBuf_one, DRes.bind]
    constructor
    · intro hbne
      unfold Instruction.deserialize
      simp only [h17, DRes.bind]
      rw [hsig]
      simp [DRes.bind, Uint8.deserialize, readBuf_one, hbne]
    · intro hbz
      subst hbz
      unfold Instruction.deserialize
      simp only [h17, DRes.bind]
      rw [hsig]
      simp [DRes.bind, Uint8.deserialize, readBuf_one]
  · constructor
    · unfold Instruction.deserialize
      simp [Uint8.deserialize, readBuf_one, DRes.bind, hbne]
    · unfold Instruction.deserialize
      simp [Uint8.deserialize, readBuf_one, DRes.bind, hbne]
  · constructor
    · unfold Instruction.deserialize
      simp [Uint8.deserialize, readBuf_one, DRes.bind]
    · unfold Instruction.deserialize
      simp [Uint8.deserialize, readBuf_one, DRes.bind]

/-- Witness for `reserved_zero_bytes`: the spec's scenario S7
(`11 00 01` ⇒ `InvalidTableReference(1)`) plus the accepting zero-byte
forms and the memory-opcode rejections. -/
theorem reserved_zero_bytes_witness :
    Instruction.deserialize ⟨[0x11, 0x00, 0x01], true⟩ =
      .err (.InvalidTableReference 1) ⟨[], true⟩ ∧
    Instruction.deserialize ⟨[0x11, 0x00, 0x00], true⟩ =
      .ok (.CallIndirect 0 0) ⟨[], true⟩ ∧
    Instruction.deserialize ⟨[0x3f, 0x01], true⟩ =
      .err (.InvalidMemoryReference 1) ⟨[], true⟩ ∧
    Instruction.deserialize ⟨[0x40, 0x00], true⟩ =
      .ok (.GrowMemory 0) ⟨[], true⟩ :=
  ⟨(reserved_zero_bytes.1 true [0x00] [] 0 1 (by decide) rfl).1 (by decide),
   (reserved_zero_bytes.1 true [0x00] [] 0 0 (by decide) rfl).2 rfl,
   (reserved_zero_bytes.2.1 true 1 [] (by decide) (by decide)).1,
   (reserved_zero_bytes.2.2 true []).2⟩

/-- Bit 7 of a byte in `128..255` is set. -/
theorem byte_and128_ne_zero : ∀ b : Nat, 128 ≤ b → b < 256 → b &&& 128 ≠ 0 := by
  intro b h1 h2
  interval_cases b <;> decide

/-- Bit 7 of a byte below 128 is clear. -/
theorem byte_and128_eq_zero : ∀ b : Nat, b < 128 → b &&& 128 = 0 := by
  intro b h
  interval_cases b <;> decide

/-- Bit 6 of a byte below 64 is clear. -/
theorem byte_and64_eq_zero : ∀ b : Nat, b < 64 → b &&& 64 = 0 := by
  intro b h
  interval_cases b <;> decide

/-- For a byte in `64..127`, bit 6 is set and setting bit 7 adds 128. -/
theorem byte_bit6_set : ∀ b : Nat, 64 ≤ b → b < 128 → b &&& 64 = 64 ∧ b ||| 128 = b + 128 := by
  intro b h1 h2
  interval_cases b <;> exact ⟨by decide, by decide⟩

/-- `i8 as u8` round-trip for a plain byte value below 128. -/
theorem i8ToU8_ofNat {b : Nat} (hb : b < 256) : i8ToU8 (b : Int) = b := by
  unfold i8ToU8
  omega

/-- **C10.**  The import `External` discriminator is decoded as a
`VarInt7`, not a raw byte: a byte with the continuation bit set fails with
`InvalidVarInt7(b)`; bytes `0..3` select `Function`, `Table`, `Memory` and
`Global`; any other byte with bit 7 clear fails with `UnknownExternalKind`
carrying the sign-extended value reinterpreted as `u8` — the byte itself
when bit 6 is clear, and `b + 128` (the byte with its top bit set) when
bit 6 is set. -/
theorem external_kind_varint7 :
    (∀ (e : Bool) (b : Nat) (rest : List Nat), 128 ≤ b → b < 256 →
        External.deserialize ⟨b :: rest, e⟩ = .err (.InvalidVarInt7 b) ⟨rest, e⟩) ∧
    (∀ (e : Bool) (b : Nat) (rest : List Nat), 3 < b → b < 64 →
        External.deserialize ⟨b :: rest, e⟩ =
          .err (.UnknownExternalKind b) ⟨rest, e⟩) ∧
    (∀ (e : Bool) (b : Nat) (rest : List Nat), 64 ≤ b → b < 128 →
        External.deserialize ⟨b :: rest, e⟩ =
          .err (.UnknownExternalKind (b + 128)) ⟨rest, e⟩) ∧
    (∀ (e : Bool) (rest : List Nat) (x : External) (r' : Reader),
        (External.deserialize ⟨0x00 :: rest, e⟩ = .ok x r' → ∃ i, x = .Function i) ∧
        (External.deserialize ⟨0x01 :: rest, e⟩ = .ok x r' → ∃ t, x = .Table t) ∧
        (External.deserialize ⟨0x02 :: rest, e⟩ = .ok x r' → ∃ m, x = .Memory m) ∧
        (External.deserialize ⟨0x03 :: rest, e⟩ = .ok x r' → ∃ g, x = .Global g)) := by
  refine ⟨fun e b rest h1 h2 => ?_, fun e b rest h1 h2 => ?_, fun e b rest h1 h2 => ?_,
    fun e rest x r' => ?_⟩
  · unfold External.deserialize VarInt7.deserialize
    simp [readBuf_one, DRes.bind, byte_and128_ne_zero b h1 h2]
  · have hv7 : VarInt7.deserialize ⟨b :: rest, e⟩ = .ok (b : Int) ⟨rest, e⟩ := by
      unfold VarInt7.deserialize
      simp [readBuf_one, DRes.bind, byte_and128_eq_zero b (by omega),
        byte_and64_eq_zero b (by omega)]
    unfold External.deserialize
    simp only [hv7, DRes.bind]
    simp [i8ToU8_ofNat (show b < 256 by omega), (show b ≠ 0 by omega),
      (show b ≠ 1 by omega), (show b ≠ 2 by omega), (show b ≠ 3 by omega)]
  · obtain ⟨hand, hor⟩ := byte_bit6_set b h1 h2
    have hv7 : VarInt7.deserialize ⟨b :: rest, e⟩ =
        .ok (((b + 128 : Nat) : Int) - 256) ⟨rest, e⟩ := by
      unfold VarInt7.deserialize
      simp [readBuf_one, DRes.bind, byte_and128_eq_zero b (by omega), hand, hor]
    have hkind : i8ToU8 ((b : Int) + 128 - 256) = b + 128 := by
      unfold i8ToU8
      omega
    unfold External.deserialize
    simp only [hv7, DRes.bind]
    simp [hkind, (show ¬ b + 128 = 0 by omega), (show ¬ b + 128 = 1 by omega),
      (show ¬ b + 128 = 2 by omega), (show ¬ b + 128 = 3 by omega)]
  · have hv7 : ∀ k : Nat, k < 64 →
        VarInt7.deserialize ⟨k :: rest, e⟩ = .ok (k : Int) ⟨rest, e⟩ := by
      intro k hk
      unfold VarInt7.deserialize
      simp [readBuf_one, DRes.bind, byte_and128_eq_zero k (by omega),
        byte_and64_eq_zero k (by omega)]
    refine ⟨fun h => ?_, fun h => ?_, fun h => ?_, fun h => ?_⟩
    · unfold External.deserialize at h
      simp only [hv7 0 (by decide), DRes.bind, i8ToU8] at h
      norm_num at h
      cases hu : VarUint32.deserialize ⟨rest, e⟩ with
      | ok i ri => rw [hu] at h; simp [DRes.bind] at h; exact ⟨i, h.1.symm⟩
      | err er rr => rw [hu] at h; simp [DRes.bind] at h
    · unfold External.deserialize at h
      simp only [hv7 1 (by decide), DRes.bind, i8ToU8] at h
      norm_num at h
      cases hu : TableType.deserialize ⟨rest, e⟩ with
      | ok t ri => rw [hu] at h; simp [DRes.bind] at h; exact ⟨t, h.1.symm⟩
      | err er rr => rw [hu] at h; simp [DRes.bind] at h
    · unfold External.deserialize at h
      simp only [hv7 2 (by decide), DRes.bind, i8ToU8] at h
      norm_num at h
      cases hu : ResizableLimits.deserialize ⟨rest, e⟩ with
      | ok m ri => rw [hu] at h; simp [DRes.bind] at h; exact ⟨m, h.1.symm⟩
      | err er rr => rw [hu] at h; simp [DRes.bind] at h
    · unfold External.deserialize at h
      simp only [hv7 3 (by decide), DRes.bind, i8ToU8] at h
      norm_num at h
      cases hu : GlobalType.deserialize ⟨rest, e⟩ with
      | ok g ri => rw [hu] at h; simp [DRes.bind] at h; exact ⟨g, h.1.symm⟩
      | err er rr => rw [hu] at h; simp [DRes.bind] at h

/-- Witness for `external_kind_varint7` at the bytes `0x85` (continuation
bit set), `0x04` (unknown kind, bit 6 clear), `0x40` (unknown kind, bit 6
set, reported as `0xC0`) and `0x00` (selects `Function`). -/
theorem external_kind_varint7_witness :
    External.deserialize ⟨[0x85], true⟩ = .err (.InvalidVarInt7 0x85) ⟨[], true⟩ ∧
    External.deserialize ⟨[0x04], true⟩ = .err (.UnknownExternalKind 4) ⟨[], true⟩ ∧
    External.deserialize ⟨[0x40], true⟩ = .err (.UnknownExternalKind 0xC0) ⟨[], true⟩ ∧
    ∃ i, External.Function 7 = External.Function i :=
  ⟨external_kind_varint7.1 true 0x85 [] (by decide) (by decide),
   external_kind_varint7.2.1 true 0x04 [] (by decide) (by decide),
   external_kind_varint7.2.2.1 true 0x40 [] (by decide) (by decide),
   (external_kind_varint7.2.2.2 true [0x07] (.Function 7) ⟨[], true⟩).1 rfl⟩

/-- Once the locals `try_fold` has failed it stays failed. -/
theorem foldl_localsStep_none : ∀ ls : List Local, List.foldl localsStep none ls = none := by
  intro ls
  induction ls with
  | nil => rfl
  | cons l t ih => simpa [localsStep] using ih

/-- A successful locals `try_fold` returns the exact sum of counts, and
that sum fits in `u32`. -/
theorem foldl_localsStep_some : ∀ (ls : List Local) (a s : Nat), a ≤ u32Max →
    List.foldl localsStep (some a) ls = some s →
    s = a + (ls.map Local.count).sum ∧ s ≤ u32Max := by
  intro ls
  induction ls with
  | nil =>
    intro a s ha h
    simp only [List.foldl_nil, Option.some.injEq] at h
    subst h
    simpa using ha
  | cons l t ih =>
    intro a s ha h
    rw [List.foldl_cons] at h
    by_cases hle : a + l.count ≤ u32Max
    · rw [show localsStep (some a) l = some (a + l.count) by simp [localsStep, hle]] at h
      obtain ⟨h1, h2⟩ := ih (a + l.count) s hle h
      refine ⟨by simp [h1]; omega, h2⟩
    · rw [show localsStep (some a) l = none by simp [localsStep, hle]] at h
      rw [foldl_localsStep_none] at h
      exact absurd h (by simp)

/-- When the total count exceeds `u32::MAX` the locals `try_fold` fails. -/
theorem foldl_localsStep_overflow : ∀ (ls : List Local) (a : Nat), a ≤ u32Max →
    u32Max < a + (ls.map Local.count).sum →
    List.foldl localsStep (some a) ls = none := by
  intro ls
  induction ls with
  | nil =>
    intro a ha hov
    exfalso
    simp at hov
    omega
  | cons l t ih =>
    intro a ha hov
    rw [List.foldl_cons]
    by_cases hle : a + l.count ≤ u32Max
    · rw [show localsStep (some a) l = some (a + l.count) by simp [localsStep, hle]]
      refine ih (a + l.count) hle ?_
      simp at hov ⊢
      omega
    · rw [show localsStep (some a) l = none by simp [localsStep, hle]]
      exact foldl_localsStep_none t

/-- **C9.**  Locals bound of `FuncBody::deserialize`: every accepted
function body has a locals-count sum that fits in `u32`, and whenever the
decoded locals overflow that sum the decode fails with `TooManyLocals`
before the instruction sequence is touched (the error is produced for
every fuel value, i.e. without running the instruction loop). -/
theorem locals_sum_bound :
    (∀ (fuel : Nat) (r : Reader) (fb : FuncBody) (r' : Reader),
        FuncBody.deserializeF fuel r = some (.ok fb r') →
        (fb.locals.map Local.count).sum ≤ u32Max) ∧
    (∀ (fuel : Nat) (r : Reader) (sr : SectionReader) (rOut : Reader)
        (locals : List Local) (rIn : Reader),
        SectionReader.new r = .ok sr rOut →
        countedList Local.deserialize sr.inner = .ok locals rIn →
        u32Max < (locals.map Local.count).sum →
        FuncBody.deserializeF fuel r = some (.err .TooManyLocals rOut)) := by
  constructor
  · intro fuel r fb r' h
    unfold FuncBody.deserializeF at h
    cases h1 : SectionReader.new r with
    | err e r1 => simp only [h1] at h; simp at h
    | ok sr rOut =>
      simp only [h1] at h
      cases h2 : countedList Local.deserialize sr.inner with
      | err e r2 => simp only [h2] at h; simp at h
      | ok locals rIn1 =>
        simp only [h2] at h
        cases h3 : localsSumChecked locals with
        | none => simp only [h3] at h; simp at h
        | some s =>
          simp only [h3] at h
          unfold localsSumChecked at h3
          obtain ⟨hs, hle⟩ := foldl_localsStep_some locals 0 s (Nat.zero_le _) h3
          cases h4 : Instructions.deserializeF fuel rIn1 with
          | none => simp only [h4] at h; simp at h
          | some dr =>
            simp only [h4] at h
            cases dr with
            | err e r2 => simp at h
            | ok instrs rIn2 =>
              cases h5 : SectionReader.close ⟨sr.declared, rIn2⟩ with
              | error k => simp only [h5] at h; simp at h
              | ok u =>
                simp only [h5] at h
                simp only [Option.some.injEq, DRes.ok.injEq] at h
                obtain ⟨hfb, -⟩ := h
                subst hfb
                show (locals.map Local.count).sum ≤ u32Max
                omega
  · intro fuel r sr rOut locals rIn h1 h2 hov
    unfold FuncBody.deserializeF
    have h3 : localsSumChecked locals = none := by
      unfold localsSumChecked
      exact foldl_localsStep_overflow locals 0 (Nat.zero_le _) (by omega)
    simp only [h1, h2, h3]

/-- Witness for `locals_sum_bound`: the 3-byte body `02 00 0B` (no locals,
`end`) is accepted with sum 0, and a body declaring two locals runs of
`2^31` each fails with `TooManyLocals`. -/
theorem locals_sum_bound_witness :
    (((FuncBody.mk [] (Instructions.mk [.End])).locals.map Local.count).sum ≤ u32Max) ∧
    FuncBody.deserializeF 1
        ⟨[0x0d, 0x02, 0x80, 0x80, 0x80, 0x80, 0x08, 0x7F,
          0x80, 0x80, 0x80, 0x80, 0x08, 0x7F], true⟩ =
      some (.err .TooManyLocals ⟨[], true⟩) :=
  ⟨locals_sum_bound.1 2 ⟨[0x02, 0x00, 0x0b], true⟩
      (FuncBody.mk [] (Instructions.mk [.End])) ⟨[], true⟩ rfl,
   locals_sum_bound.2 1
      ⟨[0x0d, 0x02, 0x80, 0x80, 0x80, 0x80, 0x08, 0x7F,
        0x80, 0x80, 0x80, 0x80, 0x08, 0x7F], true⟩
      ⟨13, ⟨[0x02, 0x80, 0x80, 0x80, 0x80, 0x08, 0x7F,
        0x80, 0x80, 0x80, 0x80, 0x08, 0x7F], false⟩⟩
      ⟨[], true⟩ [⟨0x80000000, .I32⟩, ⟨0x80000000, .I32⟩] ⟨[], false⟩ (by decide) (by decide)
      (by decide)⟩

/-- `is_terminal` holds only for `End`. -/
theorem is_terminal_eq_End : ∀ i : Instruction, i.is_terminal = true → i = .End := by
  intro i h
  cases i <;> simp [Instruction.is_terminal] at h ⊢

/-- Depth invariant of the function-body instruction loop: an accepted run
starting at block count `bc ≥ 1` is nonempty, ends with `End`, and its
running depth hits 0 exactly at the end of the sequence. -/
theorem instructionsLoopF_depth (fuel : Nat) :
    ∀ (bc : Nat) (r : Reader) (l : List Instruction) (r' : Reader), 1 ≤ bc →
      instructionsLoopF fuel bc r = some (.ok l r') →
      l ≠ [] ∧ l.getLast? = some Instruction.End ∧
        (∀ k, k ≤ l.length →
          (List.foldl depthStep bc (l.take k) = 0 ↔ k = l.length)) := by
  induction fuel with
  | zero =>
    intro bc r l r' hbc h
    simp [instructionsLoopF] at h
  | succ n ih =>
    intro bc r l r' hbc h
    simp only [instructionsLoopF] at h
    cases hd : Instruction.deserialize r with
    | err e r1 => simp only [hd] at h; simp at h
    | ok instr r1 =>
      simp only [hd] at h
      by_cases hterm : instr.is_terminal = true
      · rw [if_pos hterm] at h
        have hEnd := is_terminal_eq_End instr hterm
        subst hEnd
        by_cases hz : bc - 1 = 0
        · rw [if_pos hz] at h
          simp only [Option.some.injEq, DRes.ok.injEq] at h
          obtain ⟨hl, -⟩ := h
          subst hl
          have hbc1 : bc = 1 := by omega
          subst hbc1
          refine ⟨by simp, by simp, ?_⟩
          intro k hk
          have hk1 : k ≤ 1 := by simpa using hk
          interval_cases k <;> simp [depthStep, Instruction.is_terminal]
        · rw [if_neg hz] at h
          cases hrec : instructionsLoopF n (bc - 1) r1 with
          | none => rw [hrec] at h; simp at h
          | some dr =>
            rw [hrec] at h
            cases dr with
            | err e2 r2 => simp at h
            | ok l2 r2 =>
              simp only [Option.some.injEq, DRes.ok.injEq] at h
              obtain ⟨hl, hr⟩ := h
              subst hl
              obtain ⟨hne, hlast, hdepth⟩ := ih (bc - 1) r1 l2 r2 (by omega) hrec
              refine ⟨by simp, ?_, ?_⟩
              · cases l2 with
                | nil => exact absurd rfl hne
                | cons a t => simpa [List.getLast?_cons_cons] using hlast
              · intro k hk
                cases k with
                | zero =>
                  simp only [List.take_zero, List.foldl_nil, List.length_cons]
                  constructor
                  · intro h0; omega
                  · intro h0; omega
                | succ j =>
                  simp only [List.take_succ_cons, List.foldl_cons, List.length_cons]
                  have hstep : depthStep bc Instruction.End = bc - 1 := by
                    simp [depthStep, Instruction.is_terminal]
                  rw [hstep]
                  simp only [List.length_cons] at hk
                  rw [hdepth j (by omega)]
                  constructor <;> omega
      · rw [if_neg hterm] at h
        by_cases hblock : instr.is_block = true
        · rw [if_pos hblock] at h
          by_cases hof : bc + 1 ≤ usizeMax
          · rw [if_pos hof] at h
            cases hrec : instructionsLoopF n (bc + 1) r1 with
            | none => rw [hrec] at h; simp at h
            | some dr =>
              rw [hrec] at h
              cases dr with
              | err e2 r2 => simp at h
              | ok l2 r2 =>
                simp only [Option.some.injEq, DRes.ok.injEq] at h
                obtain ⟨hl, hr⟩ := h
                subst hl
                obtain ⟨hne, hlast, hdepth⟩ := ih (bc + 1) r1 l2 r2 (by omega) hrec
                refine ⟨by simp, ?_, ?_⟩
                · cases l2 with
                  | nil => exact absurd rfl hne
                  | cons a t => simpa [List.getLast?_cons_cons] using hlast
                · intro k hk
                  cases k with
                  | zero =>
                    simp only [List.take_zero, List.foldl_nil, List.length_cons]
                    constructor
                    · intro h0; omega
                    · intro h0; omega
                  | succ j =>
                    simp only [List.take_succ_cons, List.foldl_cons, List.length_cons]
                    have hstep : depthStep bc instr = bc + 1 := by
                      simp [depthStep, hterm, hblock]
                    rw [hstep]
                    simp only [List.length_cons] at hk
                    rw [hdepth j (by omega)]
                    constructor <;> omega
          · rw [if_neg hof] at h
            simp at h
        · rw [if_neg hblock] at h
          cases hrec : instructionsLoopF n bc r1 with
          | none => rw [hrec] at h; simp at h
          | some dr =>
            rw [hrec] at h
            cases dr with
            | err e2 r2 => simp at h
            | ok l2 r2 =>
              simp only [Option.some.injEq, DRes.ok.injEq] at h
              obtain ⟨hl, hr⟩ := h
              subst hl
              obtain ⟨hne, hlast, hdepth⟩ := ih bc r1 l2 r2 hbc hrec
              refine ⟨by simp, ?_, ?_⟩
              · cases l2 with
                | nil => exact absurd rfl hne
                | cons a t => simpa [List.getLast?_cons_cons] using hlast
              · intro k hk
                cases k with
                | zero =>
                  simp only [List.take_zero, List.foldl_nil, List.length_cons]
                  constructor
                  · intro h0; omega
                  · intro h0; omega
                | succ j =>
                  simp only [List.take_succ_cons, List.foldl_cons, List.length_cons]
                  have hstep : depthStep bc instr = bc := by
                    simp [depthStep, hterm, hblock]
                  rw [hstep]
                  simp only [List.length_cons] at hk
                  rw [hdepth j (by omega)]
                  constructor <;> omega

set_option maxRecDepth 8192 in
/-- **C7.**  Balanced structure of accepted function bodies: the depth
counter starts at 1, `Block`/`Loop`/`If` increment it, `End` decrements it,
and for every sequence accepted by `Instructions::deserialize` the counter
reaches 0 exactly once — on the last instruction — with the terminating
`End` included in the returned sequence; a counter about to pass
`usize::MAX` on a further `Block` fails with `Other("too many
instructions")`. -/
theorem instructions_balanced_depth :
    (∀ (fuel : Nat) (r : Reader) (instrs : Instructions) (r' : Reader),
        Instructions.deserializeF fuel r = some (.ok instrs r') →
        instrs.ins ≠ [] ∧ instrs.ins.getLast? = some Instruction.End ∧
          (∀ k, k ≤ instrs.ins.length →
            (List.foldl depthStep 1 (instrs.ins.take k) = 0 ↔ k = instrs.ins.length))) ∧
    (∀ (fuel : Nat) (rest : List Nat) (e : Bool),
        instructionsLoopF (fuel + 1) usizeMax ⟨0x02 :: 0x40 :: rest, e⟩ =
          some (.err (.Other "too many instructions") ⟨rest, e⟩)) := by
  constructor
  · intro fuel r instrs r' h
    unfold Instructions.deserializeF at h
    cases hl : instructionsLoopF fuel 1 r with
    | none => simp [hl, omapD] at h
    | some dr =>
      cases dr with
      | err e r2 => simp only [hl, omapD] at h; simp at h
      | ok l r2 =>
        simp only [hl, omapD, Option.some.injEq, DRes.ok.injEq] at h
        obtain ⟨hi, -⟩ := h
        subst hi
        exact instructionsLoopF_depth fuel 1 r l r2 (Nat.le_refl 1) hl
  · intro fuel rest e
    have hblockdec : Instruction.deserialize ⟨0x02 :: 0x40 :: rest, e⟩ =
        .ok (.Block .NoResult) ⟨rest, e⟩ := by
      unfold Instruction.deserialize BlockType.deserialize VarInt7.deserialize
      simp [Uint8.deserialize, readBuf_one, DRes.bind]
      rw [if_pos (by decide : (64 : Nat) &&& 128 = 0)]
      simp
    simp only [instructionsLoopF, hblockdec]
    simp [Instruction.is_terminal, Instruction.is_block, usizeMax]

/-- Witness for `instructions_balanced_depth`: the one-instruction body
`0B` (`end`) and the overflow check on `02 40` (`block (result none)`)
entered at a counter of `usize::MAX`. -/
theorem instructions_balanced_depth_witness :
    ((Instructions.mk [Instruction.End]).ins ≠ [] ∧
      (Instructions.mk [Instruction.End]).ins.getLast? = some Instruction.End ∧
      (∀ k, k ≤ (Instructions.mk [Instruction.End]).ins.length →
        (List.foldl depthStep 1 ((Instructions.mk [Instruction.End]).ins.take k) = 0 ↔
          k = (Instructions.mk [Instruction.End]).ins.length))) ∧
    instructionsLoopF 1 usizeMax ⟨[0x02, 0x40], true⟩ =
      some (.err (.Other "too many instructions") ⟨[], true⟩) :=
  ⟨instructions_balanced_depth.1 2 ⟨[0x0b], true⟩ (Instructions.mk [.End]) ⟨[], true⟩ rfl,
   instructions_balanced_depth.2 0 [] true⟩
